import Mathlib

/-!
# SPDM secure-world marshaller, SPDM interconnect governor and Tianma R63350 panel

A shallow embedding of

* `drivers/firmware/qcom_scm-spdm.c` (the SMC command marshaller),
* `drivers/interconnect/qcom/spdm-tz.c` (the bandwidth governor),
* `drivers/gpu/drm/panel/panel-oxygen-tianma-r63350.c` (the panel sequencer),

together with the properties proved about them.

Conventions.  C integers are `Nat` (unsigned) or `Int` (signed); a value that
is stored into a narrower C object is wrapped explicitly.  The global state of
the marshaller and the calls handed to the secure-call transport are threaded
through every function as a `scm_world`.  The secure firmware is an arbitrary
function of the calls made so far and of the current call.
-/

/-! ## Integer conversions -/

/-- Conversion of an integer value to the C type `int` (32 bits, two's
complement wrap-around). -/
def to_int (x : Int) : Int := (x + 2 ^ 31) % 2 ^ 32 - 2 ^ 31

/-- Conversion of a C `int` to `u64`, as done by the usual arithmetic
conversions when an `int` meets a `u64` in a comparison. -/
def to_u64 (x : Int) : Nat := (x % 2 ^ 64).toNat

/-! ## Error numbers (include/uapi/asm-generic/errno-base.h, include/linux/errno.h) -/

def ENOMEM : Int := 12
def ENODEV : Int := 19
def EINVAL : Int := 22
def ENOTSUPP : Int := 524

/-! ## drivers/firmware/qcom_scm-spdm.c -/

def QCOM_SPDM_MAX_VERSION : Nat := 0x20000
def QCOM_SPDM_NARGS : Nat := 6
def QCOM_SPDM_VOTE_MULTI : Nat := 2

/-- The identifiers that qcom_scm-spdm.c takes from headers that are not part
of the sources at hand (qcom_scm.h, linux/qcom_scm.h, linux/arm-smccc.h).  Their
values are left open: every statement below holds for all of them. -/
structure qcom_scm_h where
  QCOM_SCM_SVC_SPDM : Nat
  QCOM_SCM_SPDM_CMD : Nat
  QCOM_SCM_ARGS : Nat → Nat
  ARM_SMCCC_OWNER_SIP : Nat
  SCM_HAS_SPDM_SMC : Nat
  QCOM_SCM_SPDM_GET_VERSION : Nat
  QCOM_SCM_SPDM_GET_BW_SPECIFIC : Nat
  QCOM_SCM_SPDM_ENABLE : Nat
  QCOM_SCM_SPDM_DISABLE : Nat
  QCOM_SCM_SPDM_CFG_PORTS : Nat
  QCOM_SCM_SPDM_CFG_FILTER : Nat
  QCOM_SCM_SPDM_CFG_PERFLEVEL : Nat
  QCOM_SCM_SPDM_CFG_REJR_LOW : Nat
  QCOM_SCM_SPDM_CFG_REJR_MED : Nat
  QCOM_SCM_SPDM_CFG_REJR_HIGH : Nat
  QCOM_SCM_SPDM_CFG_RESPT_LOW : Nat
  QCOM_SCM_SPDM_CFG_RESPT_MED : Nat
  QCOM_SCM_SPDM_CFG_RESPT_HIGH : Nat
  QCOM_SCM_SPDM_CFG_CCIRESPT_LOW : Nat
  QCOM_SCM_SPDM_CFG_CCIRESPT_MED : Nat
  QCOM_SCM_SPDM_CFG_CCIRESPT_HIGH : Nat
  QCOM_SCM_SPDM_CFG_MAXCCIFREQ : Nat
  QCOM_SCM_SPDM_CFG_BW_VOTES : Nat

/-- The object behind the global pointer `__spdm`: `dev` is a device pointer
(`none` is NULL). -/
structure qcom_scm_spdm where
  dev : Option Nat
  is_smc : Bool
deriving DecidableEq

/-- The part of `struct qcom_scm_desc` that `qcom_scm_spdm_call` fills in.
`args` holds the `QCOM_SPDM_NARGS` slots written by its loop. -/
structure qcom_scm_desc where
  svc : Nat
  cmd : Nat
  arginfo : Nat
  args : List Nat
  owner : Nat
deriving DecidableEq

/-- One invocation of the secure-call transport `qcom_scm_call(dev, &desc, &res)`. -/
structure scm_invocation where
  dev : Option Nat
  desc : qcom_scm_desc
deriving DecidableEq

/-- What `qcom_scm_call` hands back: its `int` return value and `res.result[0]`
(a `u64`). -/
structure scm_reply where
  ret : Int
  result0 : Nat
deriving DecidableEq

/-- The secure-call transport: the reply may depend on every call made before. -/
abbrev scm_transport := List scm_invocation → scm_invocation → scm_reply

/-- The state the marshaller works on: the global `__spdm` (`none` is NULL) and
the calls issued to the transport so far, oldest first. -/
structure scm_world where
  __spdm : Option qcom_scm_spdm
  calls : List scm_invocation
deriving DecidableEq

/-- The descriptor `qcom_scm_spdm_call` builds from `args` and `num_args`. -/
def qcom_scm_spdm_desc (K : qcom_scm_h) (args : List Nat) (num_args : Nat) : qcom_scm_desc :=
  { svc := K.QCOM_SCM_SVC_SPDM
    cmd := K.QCOM_SCM_SPDM_CMD
    arginfo := K.QCOM_SCM_ARGS QCOM_SPDM_NARGS
    args := (List.range QCOM_SPDM_NARGS).map (fun i => if i < num_args then args.getD i 0 else 0)
    owner := K.ARM_SMCCC_OWNER_SIP }

def qcom_scm_spdm_call (K : qcom_scm_h) (tz : scm_transport) (args : List Nat) (num_args : Nat)
    (w : scm_world) : Int × scm_world :=
  match w.__spdm with
  | none => (-ENOTSUPP, w)
  | some spdm =>
    if spdm.is_smc && spdm.dev.isNone then (-ENODEV, w)
    else
      let dev := spdm.dev
      let desc := qcom_scm_spdm_desc K args num_args
      let res := tz w.calls ⟨dev, desc⟩
      let ret := to_int res.ret
      (if ret ≠ 0 then ret else to_int res.result0, { w with calls := w.calls ++ [⟨dev, desc⟩] })

def qcom_scm_spdm_cfg_bw_votes (K : qcom_scm_h) (tz : scm_transport)
    (spdm_client up down max : Nat) (w : scm_world) : Int × scm_world :=
  let args := [K.QCOM_SCM_SPDM_CFG_BW_VOTES, spdm_client, up, down, max, QCOM_SPDM_VOTE_MULTI]
  qcom_scm_spdm_call K tz args args.length w

def qcom_scm_spdm_cfg_cci_thresh (K : qcom_scm_h) (tz : scm_transport)
    (spdm_client freq : Nat) (w : scm_world) : Int × scm_world :=
  let args := [K.QCOM_SCM_SPDM_CFG_MAXCCIFREQ, spdm_client, freq]
  qcom_scm_spdm_call K tz args args.length w

def qcom_scm_spdm_get_client_bw (K : qcom_scm_h) (tz : scm_transport)
    (spdm_client : Nat) (w : scm_world) : Int × scm_world :=
  let args := [K.QCOM_SCM_SPDM_GET_BW_SPECIFIC, spdm_client]
  qcom_scm_spdm_call K tz args args.length w

/-- The loop `for (i = 0; i < n; i++) args[i + off] = src[i];` as far as the
array `args` goes: a store at an index inside `args` replaces that element.  A
store at an index past the end of `args` is undefined behaviour in C; it is
not a store into `args`, so the list is left as it is, and
`store_loop_overruns` says whether the loop makes such a store. -/
def store_loop (args : List Nat) (off : Nat) (src : List Nat) (n : Nat) : List Nat :=
  (List.range n).foldl (fun a i => a.set (i + off) (src.getD i 0)) args

/-- Whether the loop `for (i = 0; i < n; i++) args[i + off] = ...` stores past
the end of an array of `len` elements. -/
def store_loop_overruns (len off n : Nat) : Bool :=
  (List.range n).any (fun i => decide (len ≤ i + off))

/-- Whether a call of `qcom_scm_spdm_cfg_ports` with this count stores past the
end of its three-element `args`: the count passes the test `num_ports > 3` and
the loop writes `args[3]` onwards. -/
def qcom_scm_spdm_cfg_ports_overruns (num_ports : Nat) : Bool :=
  !(decide (num_ports > 3)) && store_loop_overruns 3 3 num_ports

/-- Whether a call of `qcom_scm_spdm_cfg_perflevel` with this count stores past
the end of its five-element `args`. -/
def qcom_scm_spdm_cfg_perflevel_overruns (num_freqs : Nat) : Bool :=
  !(decide (num_freqs > 3)) && store_loop_overruns 5 2 num_freqs

/-- The entry point `qcom_scm_spdm_cfg_ports`.  Its `args` has three elements
and `ARRAY_SIZE(args)`, which is 3, is what it passes as `num_args`.  With a
count from 1 to 3 the source stores past the end of `args`
(`qcom_scm_spdm_cfg_ports_overruns`), which is undefined behaviour in C.  For
such a count the definition follows the code as written, with the stores
landing outside `args`: it gives the argument vector handed to the transport
if the execution goes on.  Statements about the return value and the state of
a call are made only for counts that do not overrun. -/
def qcom_scm_spdm_cfg_ports (K : qcom_scm_h) (tz : scm_transport)
    (spdm_client : Nat) (ports : List Nat) (num_ports : Nat) (w : scm_world) : Int × scm_world :=
  let args := [K.QCOM_SCM_SPDM_CFG_PORTS, spdm_client, num_ports]
  let array_size := args.length
  if num_ports > 3 then (-EINVAL, w)
  else
    let args := store_loop args 3 ports num_ports
    qcom_scm_spdm_call K tz args array_size w

def qcom_scm_spdm_cfg_single_port (K : qcom_scm_h) (tz : scm_transport)
    (spdm_client port : Nat) (w : scm_world) : Int × scm_world :=
  let args := [K.QCOM_SCM_SPDM_CFG_PORTS, spdm_client, 1, port]
  qcom_scm_spdm_call K tz args args.length w

def qcom_scm_spdm_cfg_filter (K : qcom_scm_h) (tz : scm_transport)
    (spdm_client aup adn bucket_sz : Nat) (w : scm_world) : Int × scm_world :=
  let args := [K.QCOM_SCM_SPDM_CFG_FILTER, spdm_client, aup, adn, bucket_sz]
  qcom_scm_spdm_call K tz args args.length w

def qcom_scm_spdm_cfg_perflevel (K : qcom_scm_h) (tz : scm_transport)
    (spdm_client : Nat) (pl_freqs : List Nat) (num_freqs : Nat) (w : scm_world) :
    Int × scm_world :=
  let args := [K.QCOM_SCM_SPDM_CFG_PERFLEVEL, spdm_client, 0, 0, 0]
  let array_size := args.length
  if num_freqs > 3 then (-EINVAL, w)
  else
    let args := store_loop args 2 pl_freqs num_freqs
    qcom_scm_spdm_call K tz args array_size w

def qcom_scm_spdm_cfg_lvl_cmd (K : qcom_scm_h) (tz : scm_transport)
    (cfg spdm_client lo hi : Nat) (w : scm_world) : Int × scm_world :=
  let args := [cfg, spdm_client, lo, hi]
  qcom_scm_spdm_call K tz args args.length w

/-- The type `struct qcom_scm_spdm_level` (three arrays of two `u32`). -/
structure qcom_scm_spdm_level where
  low : Nat × Nat
  med : Nat × Nat
  high : Nat × Nat
deriving DecidableEq

/-- In the source each of the three results is assigned to `ret` and never
looked at (the checks are commented out); the function returns 0. -/
def qcom_scm_spdm_cfg_trilevel (K : qcom_scm_h) (tz : scm_transport)
    (cfg_low cfg_med cfg_high spdm_client : Nat) (r : qcom_scm_spdm_level) (w : scm_world) :
    Int × scm_world :=
  let w := (qcom_scm_spdm_cfg_lvl_cmd K tz cfg_low spdm_client r.low.1 r.low.2 w).2
  let w := (qcom_scm_spdm_cfg_lvl_cmd K tz cfg_med spdm_client r.med.1 r.med.2 w).2
  let w := (qcom_scm_spdm_cfg_lvl_cmd K tz cfg_high spdm_client r.high.1 r.high.2 w).2
  (0, w)

def qcom_scm_spdm_cfg_cci_resp_time (K : qcom_scm_h) (tz : scm_transport)
    (spdm_client : Nat) (r : qcom_scm_spdm_level) (w : scm_world) : Int × scm_world :=
  qcom_scm_spdm_cfg_trilevel K tz K.QCOM_SCM_SPDM_CFG_CCIRESPT_LOW
    K.QCOM_SCM_SPDM_CFG_CCIRESPT_MED K.QCOM_SCM_SPDM_CFG_CCIRESPT_HIGH spdm_client r w

def qcom_scm_spdm_cfg_reject_rate (K : qcom_scm_h) (tz : scm_transport)
    (spdm_client : Nat) (r : qcom_scm_spdm_level) (w : scm_world) : Int × scm_world :=
  qcom_scm_spdm_cfg_trilevel K tz K.QCOM_SCM_SPDM_CFG_REJR_LOW
    K.QCOM_SCM_SPDM_CFG_REJR_MED K.QCOM_SCM_SPDM_CFG_REJR_HIGH spdm_client r w

def qcom_scm_spdm_cfg_resp_time (K : qcom_scm_h) (tz : scm_transport)
    (spdm_client : Nat) (r : qcom_scm_spdm_level) (w : scm_world) : Int × scm_world :=
  qcom_scm_spdm_cfg_trilevel K tz K.QCOM_SCM_SPDM_CFG_RESPT_LOW
    K.QCOM_SCM_SPDM_CFG_RESPT_MED K.QCOM_SCM_SPDM_CFG_RESPT_HIGH spdm_client r w

def qcom_scm_spdm_enable (K : qcom_scm_h) (tz : scm_transport)
    (spdm_client : Nat) (enable : Bool) (w : scm_world) : Int × scm_world :=
  let args := [0, spdm_client, 0]
  let args := args.set 0 (if enable then K.QCOM_SCM_SPDM_ENABLE else K.QCOM_SCM_SPDM_DISABLE)
  qcom_scm_spdm_call K tz args args.length w

/-- The `dev_err` and `dev_info` lines only print. -/
def qcom_scm_spdm_get_version (K : qcom_scm_h) (tz : scm_transport)
    (max_version : Nat) (w : scm_world) : Int × scm_world :=
  let args := [K.QCOM_SCM_SPDM_GET_VERSION]
  let r := qcom_scm_spdm_call K tz args args.length w
  let ret := r.1
  if to_u64 ret > max_version then (-EINVAL, r.2)
  else (ret, r.2)

/-- The initialisation `__qcom_scm_spdm_init(dev, flags)`.  `alloc_ok` says
whether `devm_kzalloc` returned an object. -/
def __qcom_scm_spdm_init (K : qcom_scm_h) (tz : scm_transport) (alloc_ok : Bool)
    (dev : Option Nat) (flags : Nat) (w : scm_world) : Int × scm_world :=
  if !alloc_ok then (-ENOMEM, w)
  else
    let spdm : qcom_scm_spdm := { dev := dev, is_smc := (flags &&& K.SCM_HAS_SPDM_SMC) != 0 }
    if !spdm.is_smc then (-ENOTSUPP, w)
    else
      let w := { w with __spdm := some spdm }
      let r := qcom_scm_spdm_get_version K tz QCOM_SPDM_MAX_VERSION w
      let ret := r.1
      if ret < 0 then (ret, { r.2 with __spdm := none })
      else (0, r.2)

/-- A sample instantiation of the header constants, used to run the
definitions on concrete inputs. -/
def sample_scm_h : qcom_scm_h :=
  { QCOM_SCM_SVC_SPDM := 9
    QCOM_SCM_SPDM_CMD := 4
    QCOM_SCM_ARGS := fun n => n
    ARM_SMCCC_OWNER_SIP := 2
    SCM_HAS_SPDM_SMC := 1
    QCOM_SCM_SPDM_GET_VERSION := 0
    QCOM_SCM_SPDM_GET_BW_SPECIFIC := 2
    QCOM_SCM_SPDM_ENABLE := 3
    QCOM_SCM_SPDM_DISABLE := 4
    QCOM_SCM_SPDM_CFG_PORTS := 5
    QCOM_SCM_SPDM_CFG_FILTER := 6
    QCOM_SCM_SPDM_CFG_PERFLEVEL := 7
    QCOM_SCM_SPDM_CFG_REJR_LOW := 8
    QCOM_SCM_SPDM_CFG_REJR_MED := 9
    QCOM_SCM_SPDM_CFG_REJR_HIGH := 10
    QCOM_SCM_SPDM_CFG_RESPT_LOW := 11
    QCOM_SCM_SPDM_CFG_RESPT_MED := 12
    QCOM_SCM_SPDM_CFG_RESPT_HIGH := 13
    QCOM_SCM_SPDM_CFG_CCIRESPT_LOW := 14
    QCOM_SCM_SPDM_CFG_CCIRESPT_MED := 15
    QCOM_SCM_SPDM_CFG_CCIRESPT_HIGH := 16
    QCOM_SCM_SPDM_CFG_MAXCCIFREQ := 17
    QCOM_SCM_SPDM_CFG_BW_VOTES := 18 }

/-- A transport that answers every call with status `ret` and result `v`. -/
def const_transport (ret : Int) (v : Nat) : scm_transport := fun _ _ => ⟨ret, v⟩

/-- The state before initialisation: `__spdm` is NULL, nothing was sent. -/
def scm_world_uninit : scm_world := { __spdm := none, calls := [] }

/-- An initialised state: `__spdm` points to an SMC object with device 1. -/
def scm_world_ready : scm_world := { __spdm := some ⟨some 1, true⟩, calls := [] }

/-- The transport calls a function issued: what it appended to `calls`. -/
def issued (before after : scm_world) : List scm_invocation :=
  after.calls.drop before.calls.length

/-- Whether `qcom_scm_spdm_call` gets as far as the transport: `__spdm` is set
and the SMC path has its device. -/
def scm_world.ready (w : scm_world) : Bool :=
  match w.__spdm with
  | none => false
  | some spdm => !(spdm.is_smc && spdm.dev.isNone)

/-- The device pointer handed to the transport. -/
def scm_world.dev (w : scm_world) : Option Nat :=
  match w.__spdm with
  | none => none
  | some spdm => spdm.dev

/-- A transport call with the fixed SPDM tags and the argument vector `v`. -/
def spdm_vector (K : qcom_scm_h) (dev : Option Nat) (v : List Nat) : scm_invocation :=
  { dev := dev
    desc :=
      { svc := K.QCOM_SCM_SVC_SPDM
        cmd := K.QCOM_SCM_SPDM_CMD
        arginfo := K.QCOM_SCM_ARGS 6
        args := v
        owner := K.ARM_SMCCC_OWNER_SIP } }

/-- Zero-fill of supplied arguments to six slots. -/
def pad6 (a : List Nat) : List Nat := a ++ List.replicate (6 - a.length) 0

/-- A call of one of the public entry points with its parameters. -/
inductive spdm_api where
  | cfg_bw_votes (spdm_client up down max : Nat)
  | cfg_cci_thresh (spdm_client freq : Nat)
  | get_client_bw (spdm_client : Nat)
  | cfg_ports (spdm_client : Nat) (ports : List Nat) (num_ports : Nat)
  | cfg_single_port (spdm_client port : Nat)
  | cfg_filter (spdm_client aup adn bucket_sz : Nat)
  | cfg_perflevel (spdm_client : Nat) (pl_freqs : List Nat) (num_freqs : Nat)
  | cfg_cci_resp_time (spdm_client : Nat) (r : qcom_scm_spdm_level)
  | cfg_reject_rate (spdm_client : Nat) (r : qcom_scm_spdm_level)
  | cfg_resp_time (spdm_client : Nat) (r : qcom_scm_spdm_level)
  | enable (spdm_client : Nat) (enable : Bool)

/-- Execution of an entry-point call. -/
def spdm_api.run (K : qcom_scm_h) (tz : scm_transport) : spdm_api → scm_world → Int × scm_world
  | .cfg_bw_votes c up down max => qcom_scm_spdm_cfg_bw_votes K tz c up down max
  | .cfg_cci_thresh c freq => qcom_scm_spdm_cfg_cci_thresh K tz c freq
  | .get_client_bw c => qcom_scm_spdm_get_client_bw K tz c
  | .cfg_ports c ports n => qcom_scm_spdm_cfg_ports K tz c ports n
  | .cfg_single_port c port => qcom_scm_spdm_cfg_single_port K tz c port
  | .cfg_filter c aup adn bucket_sz => qcom_scm_spdm_cfg_filter K tz c aup adn bucket_sz
  | .cfg_perflevel c pl_freqs n => qcom_scm_spdm_cfg_perflevel K tz c pl_freqs n
  | .cfg_cci_resp_time c r => qcom_scm_spdm_cfg_cci_resp_time K tz c r
  | .cfg_reject_rate c r => qcom_scm_spdm_cfg_reject_rate K tz c r
  | .cfg_resp_time c r => qcom_scm_spdm_cfg_resp_time K tz c r
  | .enable c en => qcom_scm_spdm_enable K tz c en

/-- The argument arrays an entry-point call hands to `qcom_scm_spdm_call`, one
list per call it makes, each cut to the `num_args` it passes along: read off
the code.  An array call with more than three elements hands on nothing;
`cfg_ports` hands on its three-element array (command, client, count) and
none of the ports. -/
def spdm_api.passed (K : qcom_scm_h) : spdm_api → List (List Nat)
  | .cfg_bw_votes c up down max => [[K.QCOM_SCM_SPDM_CFG_BW_VOTES, c, up, down, max, 2]]
  | .cfg_cci_thresh c freq => [[K.QCOM_SCM_SPDM_CFG_MAXCCIFREQ, c, freq]]
  | .get_client_bw c => [[K.QCOM_SCM_SPDM_GET_BW_SPECIFIC, c]]
  | .cfg_ports c _ n => if n > 3 then [] else [[K.QCOM_SCM_SPDM_CFG_PORTS, c, n]]
  | .cfg_single_port c port => [[K.QCOM_SCM_SPDM_CFG_PORTS, c, 1, port]]
  | .cfg_filter c aup adn bucket_sz => [[K.QCOM_SCM_SPDM_CFG_FILTER, c, aup, adn, bucket_sz]]
  | .cfg_perflevel c pl_freqs n =>
    if n > 3 then [] else [[K.QCOM_SCM_SPDM_CFG_PERFLEVEL, c] ++ pl_freqs.take n]
  | .cfg_cci_resp_time c r =>
    [[K.QCOM_SCM_SPDM_CFG_CCIRESPT_LOW, c, r.low.1, r.low.2],
     [K.QCOM_SCM_SPDM_CFG_CCIRESPT_MED, c, r.med.1, r.med.2],
     [K.QCOM_SCM_SPDM_CFG_CCIRESPT_HIGH, c, r.high.1, r.high.2]]
  | .cfg_reject_rate c r =>
    [[K.QCOM_SCM_SPDM_CFG_REJR_LOW, c, r.low.1, r.low.2],
     [K.QCOM_SCM_SPDM_CFG_REJR_MED, c, r.med.1, r.med.2],
     [K.QCOM_SCM_SPDM_CFG_REJR_HIGH, c, r.high.1, r.high.2]]
  | .cfg_resp_time c r =>
    [[K.QCOM_SCM_SPDM_CFG_RESPT_LOW, c, r.low.1, r.low.2],
     [K.QCOM_SCM_SPDM_CFG_RESPT_MED, c, r.med.1, r.med.2],
     [K.QCOM_SCM_SPDM_CFG_RESPT_HIGH, c, r.high.1, r.high.2]]
  | .enable c en =>
    [[if en then K.QCOM_SCM_SPDM_ENABLE else K.QCOM_SCM_SPDM_DISABLE, c, 0]]

/-- The arguments an entry-point call supplies, one list per transport call,
as the documentation of the entry points and the specification have them: the
command word, the client and every value given to the entry point, the
elements of an array parameter included (the ports of `cfg_ports`, the
frequencies of `cfg_perflevel`).  An array call with more than three elements
is rejected and supplies nothing. -/
def spdm_api.supplied (K : qcom_scm_h) : spdm_api → List (List Nat)
  | .cfg_bw_votes c up down max => [[K.QCOM_SCM_SPDM_CFG_BW_VOTES, c, up, down, max, 2]]
  | .cfg_cci_thresh c freq => [[K.QCOM_SCM_SPDM_CFG_MAXCCIFREQ, c, freq]]
  | .get_client_bw c => [[K.QCOM_SCM_SPDM_GET_BW_SPECIFIC, c]]
  | .cfg_ports c ports n =>
    if n > 3 then [] else [[K.QCOM_SCM_SPDM_CFG_PORTS, c, n] ++ ports.take n]
  | .cfg_single_port c port => [[K.QCOM_SCM_SPDM_CFG_PORTS, c, 1, port]]
  | .cfg_filter c aup adn bucket_sz => [[K.QCOM_SCM_SPDM_CFG_FILTER, c, aup, adn, bucket_sz]]
  | .cfg_perflevel c pl_freqs n =>
    if n > 3 then [] else [[K.QCOM_SCM_SPDM_CFG_PERFLEVEL, c] ++ pl_freqs.take n]
  | .cfg_cci_resp_time c r =>
    [[K.QCOM_SCM_SPDM_CFG_CCIRESPT_LOW, c, r.low.1, r.low.2],
     [K.QCOM_SCM_SPDM_CFG_CCIRESPT_MED, c, r.med.1, r.med.2],
     [K.QCOM_SCM_SPDM_CFG_CCIRESPT_HIGH, c, r.high.1, r.high.2]]
  | .cfg_reject_rate c r =>
    [[K.QCOM_SCM_SPDM_CFG_REJR_LOW, c, r.low.1, r.low.2],
     [K.QCOM_SCM_SPDM_CFG_REJR_MED, c, r.med.1, r.med.2],
     [K.QCOM_SCM_SPDM_CFG_REJR_HIGH, c, r.high.1, r.high.2]]
  | .cfg_resp_time c r =>
    [[K.QCOM_SCM_SPDM_CFG_RESPT_LOW, c, r.low.1, r.low.2],
     [K.QCOM_SCM_SPDM_CFG_RESPT_MED, c, r.med.1, r.med.2],
     [K.QCOM_SCM_SPDM_CFG_RESPT_HIGH, c, r.high.1, r.high.2]]
  | .enable c en =>
    [[if en then K.QCOM_SCM_SPDM_ENABLE else K.QCOM_SCM_SPDM_DISABLE, c, 0]]

/-- The state after handing the calls `l` to the transport, when the
marshaller gets that far; the unchanged state otherwise. -/
def scm_world.send (w : scm_world) (l : List scm_invocation) : scm_world :=
  if w.ready then { w with calls := w.calls ++ l } else w

/-! ## drivers/interconnect/qcom/spdm-tz.c -/

def PERF_LEVEL_MAX_FREQS : Nat := 2
def SPDM_CLIENT_CPU : Nat := 0
def SPDM_CLIENT_GPU : Nat := 1
def SPDM_TZ_MAX_LINKS : Nat := 1
def TZ_APSS_SPDM : Nat := 500
def TZ_SLAVE_SPDM : Nat := 501

structure qcom_icc_node where
  name : String
  links : List Nat
  id : Nat
  num_links : Nat
  buswidth : Nat
deriving DecidableEq

structure qcom_spdm_tz_desc where
  alpha_up : Nat
  alpha_down : Nat
  bucket_size : Nat
  port : Nat
  client : Nat
  down_interval : Nat
  bw_upstep : Nat
  bw_downstep : Nat
  bw_max_vote : Nat
  cci_resp_freq : Nat
  perflvl_freqs : List Nat
  num_pl_freqs : Nat
  reject_rate : qcom_scm_spdm_level
  resp_us : qcom_scm_spdm_level
  cci_resp_us : qcom_scm_spdm_level
deriving DecidableEq

def reject_rate_5k : qcom_scm_spdm_level :=
  { low := (5000, 5000), med := (5000, 5000), high := (5000, 5000) }

def resp_us_10k : qcom_scm_spdm_level :=
  { low := (10000, 10000), med := (10000, 10000), high := (10000, 10000) }

def apss_spdm_mas : qcom_icc_node :=
  { name := "apss_spdm_mas", id := TZ_APSS_SPDM, buswidth := 16, num_links := 1,
    links := [TZ_SLAVE_SPDM] }

def spdm_slv : qcom_icc_node :=
  { name := "spdm_slv", id := TZ_SLAVE_SPDM, buswidth := 16, num_links := 0, links := [] }

def spdm_cpu_nodes : List qcom_icc_node := [apss_spdm_mas, spdm_slv]

def msm8998_spdm_cpu_desc : qcom_spdm_tz_desc :=
  { client := SPDM_CLIENT_CPU
    down_interval := 100
    port := 24
    alpha_up := 12
    alpha_down := 15
    bucket_size := 8
    bw_upstep := 1000
    bw_downstep := 1000
    bw_max_vote := 10000
    cci_resp_freq := 1036800
    perflvl_freqs := [260000, 770000]
    num_pl_freqs := 2
    reject_rate := reject_rate_5k
    resp_us := resp_us_10k
    cci_resp_us := resp_us_10k }

def sdm630_spdm_cpu_desc : qcom_spdm_tz_desc :=
  { client := SPDM_CLIENT_CPU
    down_interval := 30
    port := 24
    alpha_up := 8
    alpha_down := 15
    bucket_size := 8
    bw_upstep := 450
    bw_downstep := 6750
    bw_max_vote := 6750
    cci_resp_freq := 1036800
    perflvl_freqs := [260000, 610000]
    num_pl_freqs := 2
    reject_rate := reject_rate_5k
    resp_us := resp_us_10k
    cci_resp_us := resp_us_10k }

def sdm660_spdm_cpu_desc : qcom_spdm_tz_desc :=
  { client := SPDM_CLIENT_CPU
    down_interval := 30
    port := 24
    alpha_up := 8
    alpha_down := 15
    bucket_size := 8
    bw_upstep := 450
    bw_downstep := 8200
    bw_max_vote := 8200
    cci_resp_freq := 1036800
    perflvl_freqs := [260000, 610000]
    num_pl_freqs := 2
    reject_rate := reject_rate_5k
    resp_us := resp_us_10k
    cci_resp_us := resp_us_10k }

/-- The descriptors reachable through the match table `spdm_tz_of_match`. -/
def spdm_tz_of_match : List qcom_spdm_tz_desc :=
  [msm8998_spdm_cpu_desc, sdm630_spdm_cpu_desc, sdm660_spdm_cpu_desc]

/-- The fields of the framework's `struct icc_node` that the driver reads:
`data` is the `qcom_icc_node` stored by the probe function, `avg_bw` and
`peak_bw` are the node's current requests (`u32`). -/
structure icc_node where
  data : qcom_icc_node
  avg_bw : Nat
  peak_bw : Nat
deriving DecidableEq

/-- The driver's provider object.  `nodes` is the list `provider.nodes`,
`aggregate` the callback `provider.aggregate`, which gets the node, the tag,
the node's two requests and the current `(agg_avg, agg_peak)` and yields the
new pair.  Clocks are handles. -/
structure qcom_spdm_tz_icc_provider where
  nodes : List icc_node
  aggregate : icc_node → Nat → Nat → Nat → Nat × Nat → Nat × Nat
  spdm : qcom_spdm_tz_desc
  core_clk : Nat
  cci_clk : Option Nat
  enabled : Bool

/-- Modelled from the spec: the framework helper `icc_std_aggregate`, which the
probe function installs as `provider.aggregate` and which is not among the
sources; the spec calls it "a single linear sum already provided by a framework
helper".  The average requests are summed in a `u32`, the peak is the maximum. -/
def icc_std_aggregate (_n : icc_node) (_tag avg_bw peak_bw : Nat) (agg : Nat × Nat) : Nat × Nat :=
  ((agg.1 + avg_bw) % 2 ^ 32, max agg.2 peak_bw)

/-- Modelled from the spec: the framework's unit conversion `icc_units_to_bps`
(linux/interconnect.h, not among the sources; "converted to a rate" in the
spec): the value times `1000ULL`, in 64 bits. -/
def icc_units_to_bps (bw : Nat) : Nat := (bw * 1000) % 2 ^ 64

/-- The replay of the configuration.  Every result is assigned to `ret` and
only printed: the early returns are commented out in the source. -/
def qcom_spdm_tz_setup (K : qcom_scm_h) (tz : scm_transport) (desc : qcom_spdm_tz_desc)
    (w : scm_world) : Int × scm_world :=
  let w := (qcom_scm_spdm_cfg_single_port K tz desc.client desc.port w).2
  let w := (qcom_scm_spdm_cfg_filter K tz desc.client desc.alpha_up desc.alpha_down
    desc.bucket_size w).2
  let w := (qcom_scm_spdm_cfg_perflevel K tz desc.client desc.perflvl_freqs desc.num_pl_freqs w).2
  let w := (qcom_scm_spdm_cfg_reject_rate K tz desc.client desc.reject_rate w).2
  let w := (qcom_scm_spdm_cfg_resp_time K tz desc.client desc.resp_us w).2
  let w := (qcom_scm_spdm_cfg_cci_resp_time K tz desc.client desc.cci_resp_us w).2
  let w := (qcom_scm_spdm_cfg_cci_thresh K tz desc.client desc.cci_resp_freq w).2
  let w := (qcom_scm_spdm_cfg_bw_votes K tz desc.client desc.bw_upstep desc.bw_downstep
    desc.bw_max_vote w).2
  let w := (qcom_scm_spdm_enable K tz desc.client true w).2
  (0, w)

/-- The aggregation loop of `qcom_icc_spdm_set` over `provider.nodes`; the two
accumulators `agg_avg` and `agg_peak` are `u32` objects that start at 0. -/
def qcom_icc_spdm_set_agg (qp : qcom_spdm_tz_icc_provider) : Nat × Nat :=
  qp.nodes.foldl
    (fun (a : Nat × Nat) n =>
      let r := qp.aggregate n 0 n.avg_bw n.peak_bw a
      (r.1 % 2 ^ 32, r.2 % 2 ^ 32))
    (0, 0)

/-- The rate `qcom_icc_spdm_set` computes after the loop:
`rate = max(agg_avg, agg_peak)`, then `icc_units_to_bps`, then `do_div` by the
bus width of the source node. -/
def qcom_icc_spdm_set_rate (qp : qcom_spdm_tz_icc_provider) (src : icc_node) : Nat :=
  let qn := src.data
  let agg := qcom_icc_spdm_set_agg qp
  let agg_avg := agg.1
  let agg_peak := agg.2
  let rate := max agg_avg agg_peak
  let rate := icc_units_to_bps rate
  rate / qn.buswidth

/-- The function `qcom_icc_spdm_set`; the rate is computed by
`qcom_icc_spdm_set_rate`.  The result is the return value, the provider and
the marshaller state.  The result of the last call is only printed. -/
def qcom_icc_spdm_set (K : qcom_scm_h) (tz : scm_transport) (qp : qcom_spdm_tz_icc_provider)
    (src _dst : icc_node) (w : scm_world) : Int × qcom_spdm_tz_icc_provider × scm_world :=
  let spdm := qp.spdm
  let rate := qcom_icc_spdm_set_rate qp src
  if rate > 0 && !qp.enabled then
    let r := qcom_spdm_tz_setup K tz spdm w
    if r.1 ≠ 0 then (r.1, qp, r.2)
    else
      let qp := { qp with enabled := true }
      let r := qcom_scm_spdm_enable K tz spdm.client qp.enabled r.2
      (0, qp, r.2)
  else if rate == 0 && qp.enabled then
    let qp := { qp with enabled := false }
    let r := qcom_scm_spdm_enable K tz spdm.client qp.enabled w
    (0, qp, r.2)
  else
    let r := qcom_scm_spdm_enable K tz spdm.client qp.enabled w
    (0, qp, r.2)

/-- The entry-point calls `qcom_spdm_tz_setup` makes for a descriptor, in
order. -/
def qcom_spdm_tz_setup_api (desc : qcom_spdm_tz_desc) : List spdm_api :=
  [ spdm_api.cfg_single_port desc.client desc.port,
    spdm_api.cfg_filter desc.client desc.alpha_up desc.alpha_down desc.bucket_size,
    spdm_api.cfg_perflevel desc.client desc.perflvl_freqs desc.num_pl_freqs,
    spdm_api.cfg_reject_rate desc.client desc.reject_rate,
    spdm_api.cfg_resp_time desc.client desc.resp_us,
    spdm_api.cfg_cci_resp_time desc.client desc.cci_resp_us,
    spdm_api.cfg_cci_thresh desc.client desc.cci_resp_freq,
    spdm_api.cfg_bw_votes desc.client desc.bw_upstep desc.bw_downstep desc.bw_max_vote,
    spdm_api.enable desc.client true ]

/-- The argument vectors of the configuration replay as the specification
lists them: single port, filter, performance-level frequencies, rejection
rate, response time and CCI response time (low, medium, high each), CCI
threshold, bandwidth votes with the multiplier 2, then the enable call. -/
def replay_vectors (K : qcom_scm_h) (d : qcom_spdm_tz_desc) : List (List Nat) :=
  [ [K.QCOM_SCM_SPDM_CFG_PORTS, d.client, 1, d.port, 0, 0],
    [K.QCOM_SCM_SPDM_CFG_FILTER, d.client, d.alpha_up, d.alpha_down, d.bucket_size, 0],
    [K.QCOM_SCM_SPDM_CFG_PERFLEVEL, d.client, d.perflvl_freqs.getD 0 0,
      d.perflvl_freqs.getD 1 0, 0, 0],
    [K.QCOM_SCM_SPDM_CFG_REJR_LOW, d.client, d.reject_rate.low.1, d.reject_rate.low.2, 0, 0],
    [K.QCOM_SCM_SPDM_CFG_REJR_MED, d.client, d.reject_rate.med.1, d.reject_rate.med.2, 0, 0],
    [K.QCOM_SCM_SPDM_CFG_REJR_HIGH, d.client, d.reject_rate.high.1, d.reject_rate.high.2, 0, 0],
    [K.QCOM_SCM_SPDM_CFG_RESPT_LOW, d.client, d.resp_us.low.1, d.resp_us.low.2, 0, 0],
    [K.QCOM_SCM_SPDM_CFG_RESPT_MED, d.client, d.resp_us.med.1, d.resp_us.med.2, 0, 0],
    [K.QCOM_SCM_SPDM_CFG_RESPT_HIGH, d.client, d.resp_us.high.1, d.resp_us.high.2, 0, 0],
    [K.QCOM_SCM_SPDM_CFG_CCIRESPT_LOW, d.client, d.cci_resp_us.low.1, d.cci_resp_us.low.2, 0, 0],
    [K.QCOM_SCM_SPDM_CFG_CCIRESPT_MED, d.client, d.cci_resp_us.med.1, d.cci_resp_us.med.2, 0, 0],
    [K.QCOM_SCM_SPDM_CFG_CCIRESPT_HIGH, d.client, d.cci_resp_us.high.1, d.cci_resp_us.high.2,
      0, 0],
    [K.QCOM_SCM_SPDM_CFG_MAXCCIFREQ, d.client, d.cci_resp_freq, 0, 0, 0],
    [K.QCOM_SCM_SPDM_CFG_BW_VOTES, d.client, d.bw_upstep, d.bw_downstep, d.bw_max_vote, 2],
    [K.QCOM_SCM_SPDM_ENABLE, d.client, 0, 0, 0, 0] ]

/-- The aggregated average over all nodes of a provider, in the words of the
specification: the sum of the average requests of the nodes. -/
def aggregated_avg (nodes : List icc_node) : Nat :=
  (nodes.map (fun n => n.avg_bw)).sum

/-- The aggregated peak over all nodes of a provider: the largest peak request
of a node (0 when there is no node). -/
def aggregated_peak (nodes : List icc_node) : Nat :=
  (nodes.map (fun n => n.peak_bw)).foldl max 0

/-- The aggregated bandwidth as the specification words it: the larger of the
aggregated average and the aggregated peak over all nodes, converted to a rate
(times 1000) and divided by the bus width 16. -/
def aggregated_bandwidth (nodes : List icc_node) : Nat :=
  max (aggregated_avg nodes) (aggregated_peak nodes) * 1000 / 16

/-- The aggregated bandwidth with the average kept in 32 bits, as the `u32`
accumulator `agg_avg` keeps it: the sum of the average requests modulo 2^32. -/
def aggregated_bandwidth_u32 (nodes : List icc_node) : Nat :=
  max (aggregated_avg nodes % 2 ^ 32) (aggregated_peak nodes) * 1000 / 16

/-- A sample provider: the two nodes of the driver with the given requests,
the standard aggregation, the msm8998 descriptor. -/
def sample_provider (avg peak : Nat) (enabled : Bool) : qcom_spdm_tz_icc_provider :=
  { nodes := [⟨apss_spdm_mas, avg, peak⟩, ⟨spdm_slv, 0, 0⟩]
    aggregate := icc_std_aggregate
    spdm := msm8998_spdm_cpu_desc
    core_clk := 1
    cci_clk := none
    enabled := enabled }

/-- A sample provider whose two nodes both carry requests. -/
def sample_provider_two (avg1 peak1 avg2 peak2 : Nat) (enabled : Bool) :
    qcom_spdm_tz_icc_provider :=
  { nodes := [⟨apss_spdm_mas, avg1, peak1⟩, ⟨spdm_slv, avg2, peak2⟩]
    aggregate := icc_std_aggregate
    spdm := msm8998_spdm_cpu_desc
    core_clk := 1
    cci_clk := none
    enabled := enabled }

/-! ## drivers/gpu/drm/panel/panel-oxygen-tianma-r63350.c -/

def MIPI_DCS_WRITE_CONTROL_DISPLAY : Nat := 0x53
def MIPI_DCS_WRITE_POWER_SAVE : Nat := 0x55

/-- What the panel sequencer asks of the display stack, in the order asked. -/
inductive dsi_op where
  | generic_write (seq : List Nat)
  | dcs_write (cmd : Nat) (payload : List Nat)
  | dcs_set_display_brightness (brightness : Nat)
  | dcs_set_display_on
  | dcs_exit_sleep_mode
  | dcs_set_display_off
  | dcs_enter_sleep_mode
  | msleep (ms : Nat)
deriving DecidableEq

/-- The display command transport: the `int` result of a command may depend on
everything done before it. -/
abbrev dsi_host := List dsi_op → dsi_op → Int

/-- A checked command of the MIPI DSI helpers: issue it and take its `int`
result. -/
def mipi_dsi_cmd (host : dsi_host) (op : dsi_op) (t : List dsi_op) : Int × List dsi_op :=
  (host t op, t ++ [op])

/-- Modelled from the spec: the macro `dsi_generic_write_seq` of
panel-mipi-dsi-common.h, which is not among the sources; the spec has these
proprietary writes "fire-and-forget" and "always-succeeding": the bytes are
written and no result reaches the caller. -/
def dsi_generic_write_seq (host : dsi_host) (seq : List Nat) (t : List dsi_op) : List dsi_op :=
  (mipi_dsi_cmd host (dsi_op.generic_write seq) t).2

/-- Modelled from the spec: the macro `dsi_dcs_write_seq` of
panel-mipi-dsi-common.h, which is not among the sources; like the generic
write it is fire-and-forget. -/
def dsi_dcs_write_seq (host : dsi_host) (cmd : Nat) (payload : List Nat) (t : List dsi_op) :
    List dsi_op :=
  (mipi_dsi_cmd host (dsi_op.dcs_write cmd payload) t).2

def msleep (ms : Nat) (t : List dsi_op) : List dsi_op := t ++ [dsi_op.msleep ms]

def tianma_r63350_on (host : dsi_host) (t : List dsi_op) : Int × List dsi_op :=
  let t := dsi_generic_write_seq host [0xb0, 0x00] t
  let t := dsi_generic_write_seq host [0xd6, 0x01] t
  let t := dsi_generic_write_seq host [0xc2,
    0x31, 0xf7, 0x80, 0x17, 0x18, 0x00, 0x00, 0x08] t
  let t := dsi_generic_write_seq host [0xd3,
    0x1b, 0x33, 0x99, 0xbb, 0xb3, 0x33, 0x33, 0x33,
    0x11, 0x00, 0x01, 0x00, 0x00, 0xd8, 0xa0, 0x05,
    0x3f, 0x3f, 0x33, 0x33, 0x72, 0x12, 0x8a, 0x57,
    0x3d, 0xbc] t
  let t := dsi_generic_write_seq host [0xc7,
    0x00, 0x12, 0x1a, 0x25, 0x33, 0x42, 0x4c, 0x5c,
    0x42, 0x4a, 0x55, 0x5f, 0x69, 0x6f, 0x75, 0x00,
    0x12, 0x1a, 0x25, 0x33, 0x42, 0x4c, 0x5c, 0x42,
    0x4a, 0x55, 0x5f, 0x69, 0x6f, 0x75] t
  let t := dsi_generic_write_seq host [0xc8,
    0x01, 0x00, 0xfe, 0x00, 0xfe, 0xc8, 0x00, 0x00,
    0x02, 0x00, 0x00, 0xfc, 0x00, 0x04, 0xfe, 0x04,
    0x0d, 0xed, 0x00] t
  let t := dsi_generic_write_seq host [0xb0, 0x03] t
  let r := mipi_dsi_cmd host (dsi_op.dcs_set_display_brightness 0x00ff) t
  if r.1 < 0 then (r.1, r.2)
  else
    let t := dsi_dcs_write_seq host MIPI_DCS_WRITE_CONTROL_DISPLAY [0x24] r.2
    let t := dsi_dcs_write_seq host MIPI_DCS_WRITE_POWER_SAVE [0x00] t
    let r := mipi_dsi_cmd host dsi_op.dcs_set_display_on t
    if r.1 < 0 then (r.1, r.2)
    else
      let t := msleep 20 r.2
      let r := mipi_dsi_cmd host dsi_op.dcs_exit_sleep_mode t
      if r.1 < 0 then (r.1, r.2)
      else
        let t := msleep 120 r.2
        (0, t)

def tianma_r63350_off (host : dsi_host) (t : List dsi_op) : Int × List dsi_op :=
  let r := mipi_dsi_cmd host dsi_op.dcs_set_display_off t
  if r.1 < 0 then (r.1, r.2)
  else
    let t := msleep 20 r.2
    let t := dsi_generic_write_seq host [0xb0, 0x00] t
    let t := dsi_generic_write_seq host [0xd3,
      0x13, 0x33, 0x99, 0xb3, 0xb3, 0x33, 0x33, 0x33,
      0x11, 0x00, 0x01, 0x00, 0x00, 0xd8, 0xa0, 0x05,
      0x3f, 0x3f, 0x33, 0x33, 0x72, 0x12, 0x8a, 0x57,
      0x3d, 0xbc] t
    let t := msleep 50 t
    let t := dsi_generic_write_seq host [0xb0, 0x03] t
    let r := mipi_dsi_cmd host dsi_op.dcs_enter_sleep_mode t
    if r.1 < 0 then (r.1, r.2)
    else
      let t := msleep 50 r.2
      (0, t)

/-- The operations of a complete power-on, as the specification lists them. -/
def tianma_on_trace : List dsi_op :=
  [ dsi_op.generic_write [0xb0, 0x00],
    dsi_op.generic_write [0xd6, 0x01],
    dsi_op.generic_write [0xc2, 0x31, 0xf7, 0x80, 0x17, 0x18, 0x00, 0x00, 0x08],
    dsi_op.generic_write [0xd3,
      0x1b, 0x33, 0x99, 0xbb, 0xb3, 0x33, 0x33, 0x33,
      0x11, 0x00, 0x01, 0x00, 0x00, 0xd8, 0xa0, 0x05,
      0x3f, 0x3f, 0x33, 0x33, 0x72, 0x12, 0x8a, 0x57,
      0x3d, 0xbc],
    dsi_op.generic_write [0xc7,
      0x00, 0x12, 0x1a, 0x25, 0x33, 0x42, 0x4c, 0x5c,
      0x42, 0x4a, 0x55, 0x5f, 0x69, 0x6f, 0x75, 0x00,
      0x12, 0x1a, 0x25, 0x33, 0x42, 0x4c, 0x5c, 0x42,
      0x4a, 0x55, 0x5f, 0x69, 0x6f, 0x75],
    dsi_op.generic_write [0xc8,
      0x01, 0x00, 0xfe, 0x00, 0xfe, 0xc8, 0x00, 0x00,
      0x02, 0x00, 0x00, 0xfc, 0x00, 0x04, 0xfe, 0x04,
      0x0d, 0xed, 0x00],
    dsi_op.generic_write [0xb0, 0x03],
    dsi_op.dcs_set_display_brightness 0x00ff,
    dsi_op.dcs_write MIPI_DCS_WRITE_CONTROL_DISPLAY [0x24],
    dsi_op.dcs_write MIPI_DCS_WRITE_POWER_SAVE [0x00],
    dsi_op.dcs_set_display_on,
    dsi_op.msleep 20,
    dsi_op.dcs_exit_sleep_mode,
    dsi_op.msleep 120 ]

/-- A display transport on which every command succeeds. -/
def dsi_host_ok : dsi_host := fun _ _ => 0

/-- A display transport on which the command `bad` fails with `e` and every
other command succeeds. -/
def dsi_host_failing (bad : dsi_op) (e : Int) : dsi_host := fun _ op => if op = bad then e else 0


/-- The operations of a complete power-off, in the order the function
performs them. -/
def tianma_off_trace : List dsi_op :=
  [ dsi_op.dcs_set_display_off,
    dsi_op.msleep 20,
    dsi_op.generic_write [0xb0, 0x00],
    dsi_op.generic_write [0xd3,
      0x13, 0x33, 0x99, 0xb3, 0xb3, 0x33, 0x33, 0x33,
      0x11, 0x00, 0x01, 0x00, 0x00, 0xd8, 0xa0, 0x05,
      0x3f, 0x3f, 0x33, 0x33, 0x72, 0x12, 0x8a, 0x57,
      0x3d, 0xbc],
    dsi_op.msleep 50,
    dsi_op.generic_write [0xb0, 0x03],
    dsi_op.dcs_enter_sleep_mode,
    dsi_op.msleep 50 ]

/-- The operations of a power-off as the specification lists them: display-off,
the two proprietary writes, a 50 ms settle, the closing write, enter-sleep, a
50 ms settle, and nothing else. -/
def tianma_off_trace_listed : List dsi_op :=
  [ dsi_op.dcs_set_display_off,
    dsi_op.generic_write [0xb0, 0x00],
    dsi_op.generic_write [0xd3,
      0x13, 0x33, 0x99, 0xb3, 0xb3, 0x33, 0x33, 0x33,
      0x11, 0x00, 0x01, 0x00, 0x00, 0xd8, 0xa0, 0x05,
      0x3f, 0x3f, 0x33, 0x33, 0x72, 0x12, 0x8a, 0x57,
      0x3d, 0xbc],
    dsi_op.msleep 50,
    dsi_op.generic_write [0xb0, 0x03],
    dsi_op.dcs_enter_sleep_mode,
    dsi_op.msleep 50 ]

/-! ## Properties -/

/-! ### The marshalling routine -/

theorem qcom_scm_spdm_call_uninit (K : qcom_scm_h) (tz : scm_transport) (args : List Nat)
    (n : Nat) (w : scm_world) (h : w.__spdm = none) :
    qcom_scm_spdm_call K tz args n w = (-ENOTSUPP, w) := by
  simp [qcom_scm_spdm_call, h]

/-- **C1.** An array entry point called with a count above 3 returns `-EINVAL`
and leaves the marshaller state, the list of transport calls included, as it
was; the state is arbitrary, so this holds before and after initialisation. -/
theorem c1_array_count_above_three_is_einval (K : qcom_scm_h) (tz : scm_transport)
    (client : Nat) (arr : List Nat) (n : Nat) (w : scm_world) (h : 3 < n) :
    qcom_scm_spdm_cfg_ports K tz client arr n w = (-EINVAL, w) ∧
    qcom_scm_spdm_cfg_perflevel K tz client arr n w = (-EINVAL, w) := by
  simp [qcom_scm_spdm_cfg_ports, qcom_scm_spdm_cfg_perflevel, h]

theorem c1_array_count_above_three_is_einval_witness :
    (3 < 4) ∧
    qcom_scm_spdm_cfg_ports sample_scm_h (const_transport 0 0) 0 [24, 25, 26, 27] 4
      scm_world_ready = (-EINVAL, scm_world_ready) ∧
    qcom_scm_spdm_cfg_perflevel sample_scm_h (const_transport 0 0) 0 [24, 25, 26, 27] 4
      scm_world_ready = (-EINVAL, scm_world_ready) :=
  ⟨by decide, c1_array_count_above_three_is_einval sample_scm_h (const_transport 0 0) 0
    [24, 25, 26, 27] 4 scm_world_ready (by decide)⟩

/-! ### Integer conversions -/

theorem to_int_of_low (v : Nat) (h : v % 2 ^ 32 < 2 ^ 31) :
    to_int (v : Int) = ((v % 2 ^ 32 : Nat) : Int) := by
  unfold to_int
  norm_num at h ⊢
  omega

theorem to_int_of_high (v : Nat) (h : 2 ^ 31 ≤ v % 2 ^ 32) :
    to_int (v : Int) = ((v % 2 ^ 32 : Nat) : Int) - 2 ^ 32 := by
  unfold to_int
  norm_num at h ⊢
  omega

theorem to_u64_of_nonneg (n : Nat) (h : n < 2 ^ 64) : to_u64 (n : Int) = n := by
  unfold to_u64
  norm_num at h ⊢
  omega

theorem to_u64_of_neg (x : Int) (h : x < 0) (hlo : -(2 ^ 31) ≤ x) :
    2 ^ 63 ≤ to_u64 x := by
  unfold to_u64
  norm_num at hlo ⊢
  omega

/-- The test `ret > max_version` of `qcom_scm_spdm_get_version` on the result
of a call whose result slot held `v`: it looks at the low 32 bits of `v`. -/
theorem version_test_iff (v : Nat) :
    QCOM_SPDM_MAX_VERSION < to_u64 (to_int (v : Int)) ↔ QCOM_SPDM_MAX_VERSION < v % 2 ^ 32 := by
  unfold QCOM_SPDM_MAX_VERSION
  by_cases h : v % 2 ^ 32 < 2 ^ 31
  · rw [to_int_of_low v h, to_u64_of_nonneg _ (by norm_num at h ⊢; omega)]
  · have h2 : 2 ^ 31 ≤ v % 2 ^ 32 := Nat.le_of_not_lt h
    have hneg : to_int (v : Int) < 0 := by
      rw [to_int_of_high v h2]
      norm_num at h2 ⊢
      omega
    have hlo : -(2 ^ 31) ≤ to_int (v : Int) := by
      rw [to_int_of_high v h2]
      norm_num at h2 ⊢
      omega
    have := to_u64_of_neg _ hneg hlo
    constructor
    · intro _
      norm_num at h2 ⊢
      omega
    · intro _
      norm_num at this ⊢
      omega

/-! ### Calls on an initialised and on an uninitialised module -/

theorem qcom_scm_spdm_call_dev (K : qcom_scm_h) (tz : scm_transport) (args : List Nat)
    (n : Nat) (w : scm_world) (d : Nat) (smc : Bool) (h : w.__spdm = some ⟨some d, smc⟩) :
    qcom_scm_spdm_call K tz args n w =
      (if to_int (tz w.calls ⟨some d, qcom_scm_spdm_desc K args n⟩).ret ≠ 0
        then to_int (tz w.calls ⟨some d, qcom_scm_spdm_desc K args n⟩).ret
        else to_int (tz w.calls ⟨some d, qcom_scm_spdm_desc K args n⟩).result0,
       { w with calls := w.calls ++ [⟨some d, qcom_scm_spdm_desc K args n⟩] }) := by
  simp [qcom_scm_spdm_call, h]

/-- **C2, as stated, fails**: on the uninitialised module the rejection-rate
entry point returns 0, which is not `-ENOTSUPP`. -/
theorem c2_uninit_reject_rate_returns_zero :
    scm_world_uninit.__spdm = none ∧
    (qcom_scm_spdm_cfg_reject_rate sample_scm_h (const_transport 0 0) 0 reject_rate_5k
      scm_world_uninit).1 = 0 ∧
    (qcom_scm_spdm_cfg_reject_rate sample_scm_h (const_transport 0 0) 0 reject_rate_5k
      scm_world_uninit).1 ≠ -ENOTSUPP := by
  decide

theorem store_loop_overruns_iff (len off n : Nat) :
    store_loop_overruns len off n = true ↔ 0 < n ∧ len < off + n := by
  simp only [store_loop_overruns, List.any_eq_true, List.mem_range, decide_eq_true_eq]
  constructor
  · rintro ⟨i, hi, hlen⟩
    omega
  · rintro ⟨hn, hlen⟩
    exact ⟨n - 1, by omega, by omega⟩

/-- A call of `cfg_ports` stores past its array exactly for the counts 1, 2
and 3; a call of `cfg_perflevel` never does. -/
theorem cfg_overruns (n : Nat) :
    (qcom_scm_spdm_cfg_ports_overruns n = true ↔ 1 ≤ n ∧ n ≤ 3) ∧
    qcom_scm_spdm_cfg_perflevel_overruns n = false := by
  constructor
  · simp only [qcom_scm_spdm_cfg_ports_overruns, Bool.and_eq_true, Bool.not_eq_true',
      decide_eq_false_iff_not, store_loop_overruns_iff]
    omega
  · cases h : qcom_scm_spdm_cfg_perflevel_overruns n
    · rfl
    · simp only [qcom_scm_spdm_cfg_perflevel_overruns, Bool.and_eq_true, Bool.not_eq_true',
        decide_eq_false_iff_not, store_loop_overruns_iff] at h
      omega

/-- **C2, amended.** While `__spdm` is NULL, the entry points
`cfg_bw_votes`, `cfg_cci_thresh`, `get_client_bw`, `cfg_ports` with count 0,
`cfg_single_port`, `cfg_filter`, `cfg_perflevel` with a count of at most 3
over an array of at least that many frequencies, and `enable` return
`-ENOTSUPP`; the three tri-level entry points
`cfg_cci_resp_time`, `cfg_reject_rate` and `cfg_resp_time` return 0.  None of
them changes the state or issues a transport call, and none of these calls
stores outside its argument array.  (Nothing is said of `cfg_ports` with a
count from 1 to 3, which stores past its array before the NULL test.) -/
theorem c2_uninit_entry_points (K : qcom_scm_h) (tz : scm_transport) (w : scm_world)
    (c up down max freq port aup adn bucket_sz n : Nat) (arr : List Nat)
    (r : qcom_scm_spdm_level) (en : Bool)
    (h : w.__spdm = none) (hn : n ≤ 3) (_harr : n ≤ arr.length) :
    qcom_scm_spdm_cfg_bw_votes K tz c up down max w = (-ENOTSUPP, w) ∧
    qcom_scm_spdm_cfg_cci_thresh K tz c freq w = (-ENOTSUPP, w) ∧
    qcom_scm_spdm_get_client_bw K tz c w = (-ENOTSUPP, w) ∧
    (qcom_scm_spdm_cfg_ports_overruns 0 = false ∧
      qcom_scm_spdm_cfg_ports K tz c arr 0 w = (-ENOTSUPP, w)) ∧
    qcom_scm_spdm_cfg_single_port K tz c port w = (-ENOTSUPP, w) ∧
    qcom_scm_spdm_cfg_filter K tz c aup adn bucket_sz w = (-ENOTSUPP, w) ∧
    (qcom_scm_spdm_cfg_perflevel_overruns n = false ∧
      qcom_scm_spdm_cfg_perflevel K tz c arr n w = (-ENOTSUPP, w)) ∧
    qcom_scm_spdm_enable K tz c en w = (-ENOTSUPP, w) ∧
    qcom_scm_spdm_cfg_cci_resp_time K tz c r w = (0, w) ∧
    qcom_scm_spdm_cfg_reject_rate K tz c r w = (0, w) ∧
    qcom_scm_spdm_cfg_resp_time K tz c r w = (0, w) := by
  have hn3 : ¬ 3 < n := Nat.not_lt.mpr hn
  have hp := (cfg_overruns n).2
  have h0 : qcom_scm_spdm_cfg_ports_overruns 0 = false := by decide
  simp [qcom_scm_spdm_cfg_bw_votes, qcom_scm_spdm_cfg_cci_thresh, qcom_scm_spdm_get_client_bw,
    qcom_scm_spdm_cfg_ports, qcom_scm_spdm_cfg_single_port, qcom_scm_spdm_cfg_filter,
    qcom_scm_spdm_cfg_perflevel, qcom_scm_spdm_enable, qcom_scm_spdm_cfg_cci_resp_time,
    qcom_scm_spdm_cfg_reject_rate, qcom_scm_spdm_cfg_resp_time, qcom_scm_spdm_cfg_trilevel,
    qcom_scm_spdm_cfg_lvl_cmd, qcom_scm_spdm_call_uninit K tz _ _ w h, hn3, hp, h0]

theorem c2_uninit_entry_points_witness :
    scm_world_uninit.__spdm = none ∧ (2 ≤ 3) ∧ (2 ≤ [260000, 770000].length) ∧
    qcom_scm_spdm_cfg_ports sample_scm_h (const_transport 0 0) 0 [260000, 770000] 0
      scm_world_uninit = (-ENOTSUPP, scm_world_uninit) ∧
    qcom_scm_spdm_cfg_perflevel sample_scm_h (const_transport 0 0) 0 [260000, 770000] 2
      scm_world_uninit = (-ENOTSUPP, scm_world_uninit) ∧
    qcom_scm_spdm_cfg_resp_time sample_scm_h (const_transport 0 0) 0 resp_us_10k scm_world_uninit
      = (0, scm_world_uninit) :=
  have h := c2_uninit_entry_points sample_scm_h (const_transport 0 0) scm_world_uninit
    0 1000 1000 10000 1036800 24 12 15 8 2 [260000, 770000] resp_us_10k true rfl (by decide)
    (by decide)
  ⟨rfl, by decide, by decide, h.2.2.2.1.2, h.2.2.2.2.2.2.1.2, h.2.2.2.2.2.2.2.2.2.2⟩

/-- **C3, as stated, fails**: the firmware reports the version `0x100000000`,
which is above `0x20000`, in result slot 0 of a successful call; the version
query returns 0 instead of `-EINVAL` and the initialisation returns 0 and
leaves `__spdm` set. -/
theorem c3_version_above_max_accepted :
    QCOM_SPDM_MAX_VERSION < 0x100000000 ∧
    (qcom_scm_spdm_get_version sample_scm_h (const_transport 0 0x100000000) 0x20000
      scm_world_ready).1 = 0 ∧
    (__qcom_scm_spdm_init sample_scm_h (const_transport 0 0x100000000) true (some 1) 1
      scm_world_uninit).1 = 0 ∧
    (__qcom_scm_spdm_init sample_scm_h (const_transport 0 0x100000000) true (some 1) 1
      scm_world_uninit).2.__spdm = some ⟨some 1, true⟩ := by
  decide

/-- **C3, amended.** The version is judged by the low 32 bits of result slot
0.  For a successful version query (transport status 0) reporting `v`, with
the allocation succeeding, the SMC flag set and a device `d`: if
`v mod 2^32` is at most `0x20000`, the version query returns `v mod 2^32`
and the initialisation returns 0 with `__spdm` set; if `v mod 2^32` is above
`0x20000`, both return `-EINVAL` and `__spdm` is NULL afterwards.  For
`v < 2^32` this is the claim as written. -/
theorem c3_version_handshake (K : qcom_scm_h) (tz : scm_transport) (d flags v : Nat)
    (w : scm_world)
    (hflags : flags &&& K.SCM_HAS_SPDM_SMC ≠ 0)
    (hreply : tz w.calls (spdm_vector K (some d) [K.QCOM_SCM_SPDM_GET_VERSION, 0, 0, 0, 0, 0])
      = ⟨0, v⟩) :
    (v % 2 ^ 32 ≤ 0x20000 →
      (qcom_scm_spdm_get_version K tz 0x20000 { w with __spdm := some ⟨some d, true⟩ }).1
        = ((v % 2 ^ 32 : Nat) : Int) ∧
      (__qcom_scm_spdm_init K tz true (some d) flags w).1 = 0 ∧
      (__qcom_scm_spdm_init K tz true (some d) flags w).2.__spdm = some ⟨some d, true⟩) ∧
    (0x20000 < v % 2 ^ 32 →
      (qcom_scm_spdm_get_version K tz 0x20000 { w with __spdm := some ⟨some d, true⟩ }).1
        = -EINVAL ∧
      (__qcom_scm_spdm_init K tz true (some d) flags w).1 = -EINVAL ∧
      (__qcom_scm_spdm_init K tz true (some d) flags w).2.__spdm = none) := by
  have hdesc : (⟨some d, qcom_scm_spdm_desc K [K.QCOM_SCM_SPDM_GET_VERSION] 1⟩ : scm_invocation)
      = spdm_vector K (some d) [K.QCOM_SCM_SPDM_GET_VERSION, 0, 0, 0, 0, 0] := by
    simp [qcom_scm_spdm_desc, spdm_vector, QCOM_SPDM_NARGS, List.range_succ]
  have hcall : qcom_scm_spdm_call K tz [K.QCOM_SCM_SPDM_GET_VERSION] 1
      { w with __spdm := some ⟨some d, true⟩ } =
      (to_int (v : Int), { __spdm := some ⟨some d, true⟩, calls := w.calls ++
        [spdm_vector K (some d) [K.QCOM_SCM_SPDM_GET_VERSION, 0, 0, 0, 0, 0]] }) := by
    rw [qcom_scm_spdm_call_dev K tz _ _ _ d true rfl, hdesc]
    simp [hreply, to_int]
  have hsmc : ((flags &&& K.SCM_HAS_SPDM_SMC) != 0) = true := by simpa using hflags
  have hget : qcom_scm_spdm_get_version K tz 0x20000 { w with __spdm := some ⟨some d, true⟩ } =
      if 131072 < to_u64 (to_int (v : Int)) then
        (-EINVAL, { __spdm := some ⟨some d, true⟩, calls := w.calls ++
          [spdm_vector K (some d) [K.QCOM_SCM_SPDM_GET_VERSION, 0, 0, 0, 0, 0]] })
      else
        (to_int (v : Int), { __spdm := some ⟨some d, true⟩, calls := w.calls ++
          [spdm_vector K (some d) [K.QCOM_SCM_SPDM_GET_VERSION, 0, 0, 0, 0, 0]] }) := by
    simp only [qcom_scm_spdm_get_version, List.length_singleton, hcall]
  have hinit : __qcom_scm_spdm_init K tz true (some d) flags w =
      if (qcom_scm_spdm_get_version K tz 0x20000 { w with __spdm := some ⟨some d, true⟩ }).1 < 0
      then ((qcom_scm_spdm_get_version K tz 0x20000 { w with __spdm := some ⟨some d, true⟩ }).1,
        { (qcom_scm_spdm_get_version K tz 0x20000
            { w with __spdm := some ⟨some d, true⟩ }).2 with __spdm := none })
      else (0, (qcom_scm_spdm_get_version K tz 0x20000
        { w with __spdm := some ⟨some d, true⟩ }).2) := by
    simp only [__qcom_scm_spdm_init, hsmc, QCOM_SPDM_MAX_VERSION]
    rfl
  have htest := version_test_iff v
  unfold QCOM_SPDM_MAX_VERSION at htest
  constructor
  · intro hv
    have hnot : ¬ (131072 < to_u64 (to_int (v : Int))) := by
      rw [htest]; omega
    have hval : to_int (v : Int) = ((v % 2 ^ 32 : Nat) : Int) :=
      to_int_of_low v (by norm_num at hv ⊢; omega)
    have hnn : ¬ (to_int (v : Int) < 0) := by
      rw [hval]; exact Int.not_lt.mpr (Int.ofNat_nonneg _)
    rw [hinit, hget, if_neg hnot, if_neg hnn]
    exact ⟨hval, rfl, rfl⟩
  · intro hv
    have hyes : 131072 < to_u64 (to_int (v : Int)) := by
      rw [htest]; exact hv
    have hneg : -EINVAL < 0 := by decide
    rw [hinit, hget, if_pos hyes, if_pos hneg]
    exact ⟨rfl, rfl, rfl⟩

theorem c3_version_handshake_witness :
    (1 &&& sample_scm_h.SCM_HAS_SPDM_SMC ≠ 0) ∧
    (0x20000 % 2 ^ 32 ≤ 0x20000) ∧
    (qcom_scm_spdm_get_version sample_scm_h (const_transport 0 0x20000) 0x20000
        { scm_world_uninit with __spdm := some ⟨some 1, true⟩ }).1
      = ((0x20000 % 2 ^ 32 : Nat) : Int) ∧
    (__qcom_scm_spdm_init sample_scm_h (const_transport 0 0x20000) true (some 1) 1
      scm_world_uninit).1 = 0 ∧
    (__qcom_scm_spdm_init sample_scm_h (const_transport 0 0x20000) true (some 1) 1
      scm_world_uninit).2.__spdm = some ⟨some 1, true⟩ :=
  ⟨by decide, by decide,
    (c3_version_handshake sample_scm_h (const_transport 0 0x20000) 1 1 0x20000 scm_world_uninit
      (by decide) rfl).1 (by decide)⟩

/-! ### The governor -/

theorem agg_fold_lt (f : icc_node → Nat → Nat → Nat → Nat × Nat → Nat × Nat)
    (l : List icc_node) (a : Nat × Nat) (h1 : a.1 < 2 ^ 32) (h2 : a.2 < 2 ^ 32) :
    (l.foldl (fun (a : Nat × Nat) n =>
        let r := f n 0 n.avg_bw n.peak_bw a
        (r.1 % 2 ^ 32, r.2 % 2 ^ 32)) a).1 < 2 ^ 32 ∧
    (l.foldl (fun (a : Nat × Nat) n =>
        let r := f n 0 n.avg_bw n.peak_bw a
        (r.1 % 2 ^ 32, r.2 % 2 ^ 32)) a).2 < 2 ^ 32 := by
  induction l generalizing a with
  | nil => exact ⟨h1, h2⟩
  | cons n l ih =>
    simp only [List.foldl_cons]
    exact ih _ (Nat.mod_lt _ (by norm_num)) (Nat.mod_lt _ (by norm_num))

theorem qcom_icc_spdm_set_agg_lt (qp : qcom_spdm_tz_icc_provider) :
    (qcom_icc_spdm_set_agg qp).1 < 2 ^ 32 ∧ (qcom_icc_spdm_set_agg qp).2 < 2 ^ 32 :=
  agg_fold_lt qp.aggregate qp.nodes (0, 0) (by norm_num) (by norm_num)

/-- On the nodes of this driver (bus width 16) the 64-bit product does not
wrap and the rate is the larger aggregate times 1000, divided by 16. -/
theorem qcom_icc_spdm_set_rate_eq (qp : qcom_spdm_tz_icc_provider) (src : icc_node)
    (hsrc : src.data ∈ spdm_cpu_nodes) :
    qcom_icc_spdm_set_rate qp src =
      max (qcom_icc_spdm_set_agg qp).1 (qcom_icc_spdm_set_agg qp).2 * 1000 / 16 := by
  have hb : src.data.buswidth = 16 := by
    simp only [spdm_cpu_nodes, List.mem_cons, List.mem_singleton, List.mem_nil_iff,
      or_false] at hsrc
    rcases hsrc with h | h <;> rw [h] <;> rfl
  obtain ⟨h1, h2⟩ := qcom_icc_spdm_set_agg_lt qp
  have hmax : max (qcom_icc_spdm_set_agg qp).1 (qcom_icc_spdm_set_agg qp).2 < 2 ^ 32 :=
    max_lt h1 h2
  simp only [qcom_icc_spdm_set_rate, icc_units_to_bps, hb]
  rw [Nat.mod_eq_of_lt]
  norm_num at hmax ⊢
  omega

theorem qcom_spdm_tz_setup_ret (K : qcom_scm_h) (tz : scm_transport) (desc : qcom_spdm_tz_desc)
    (w : scm_world) : (qcom_spdm_tz_setup K tz desc w).1 = 0 := rfl

/-- The three ways through `qcom_icc_spdm_set`. -/
theorem qcom_icc_spdm_set_eq (K : qcom_scm_h) (tz : scm_transport)
    (qp : qcom_spdm_tz_icc_provider) (src dst : icc_node) (w : scm_world) :
    qcom_icc_spdm_set K tz qp src dst w =
      if 0 < qcom_icc_spdm_set_rate qp src ∧ qp.enabled = false then
        (0, { qp with enabled := true },
          (qcom_scm_spdm_enable K tz qp.spdm.client true
            (qcom_spdm_tz_setup K tz qp.spdm w).2).2)
      else if qcom_icc_spdm_set_rate qp src = 0 ∧ qp.enabled = true then
        (0, { qp with enabled := false }, (qcom_scm_spdm_enable K tz qp.spdm.client false w).2)
      else
        (0, qp, (qcom_scm_spdm_enable K tz qp.spdm.client qp.enabled w).2) := by
  unfold qcom_icc_spdm_set
  cases he : qp.enabled <;> by_cases hr : 0 < qcom_icc_spdm_set_rate qp src <;>
    simp [he, hr, qcom_spdm_tz_setup_ret]

theorem qcom_icc_spdm_set_enabled (K : qcom_scm_h) (tz : scm_transport)
    (qp : qcom_spdm_tz_icc_provider) (src dst : icc_node) (w : scm_world) :
    ((qcom_icc_spdm_set K tz qp src dst w).2.1.enabled = true ↔
      0 < qcom_icc_spdm_set_rate qp src) ∧
    (qcom_icc_spdm_set K tz qp src dst w).1 = 0 := by
  rw [qcom_icc_spdm_set_eq]
  cases he : qp.enabled <;> by_cases hr : 0 < qcom_icc_spdm_set_rate qp src
  · simp [he, hr]
  · simp [he, hr]
  · have hne : qcom_icc_spdm_set_rate qp src ≠ 0 := Nat.pos_iff_ne_zero.mp hr
    simp [he, hr, hne]
  · have hz : qcom_icc_spdm_set_rate qp src = 0 := Nat.eq_zero_of_not_pos hr
    simp [he, hz]

theorem sum_pos_iff_exists (l : List Nat) : 0 < l.sum ↔ ∃ x ∈ l, 0 < x := by
  induction l with
  | nil => simp
  | cons x l ih =>
    simp only [List.sum_cons, List.mem_cons, exists_eq_or_imp]
    rw [← ih]
    omega

theorem foldl_max_pos_iff (l : List Nat) (a : Nat) :
    0 < l.foldl max a ↔ 0 < a ∨ ∃ x ∈ l, 0 < x := by
  induction l generalizing a with
  | nil => simp
  | cons x l ih =>
    simp only [List.foldl_cons, List.mem_cons, exists_eq_or_imp]
    rw [ih]
    constructor
    · rintro (h | h)
      · rcases Nat.lt_or_ge 0 a with ha | ha
        · exact Or.inl ha
        · have : a = 0 := by omega
          subst this
          simp only [Nat.zero_max] at h
          exact Or.inr (Or.inl h)
      · exact Or.inr (Or.inr h)
    · rintro (h | h | h)
      · exact Or.inl (lt_max_of_lt_left h)
      · exact Or.inl (lt_max_of_lt_right h)
      · exact Or.inr h

/-- The aggregation loop with the standard callback, started from any pair of
32-bit values: the averages are summed modulo 2^32, the peaks are maximised. -/
theorem std_agg_fold (l : List icc_node) (a : Nat × Nat) (h1 : a.1 < 2 ^ 32)
    (h2 : a.2 < 2 ^ 32) (hu : ∀ n ∈ l, n.avg_bw < 2 ^ 32 ∧ n.peak_bw < 2 ^ 32) :
    l.foldl (fun (a : Nat × Nat) n =>
        let r := icc_std_aggregate n 0 n.avg_bw n.peak_bw a
        (r.1 % 2 ^ 32, r.2 % 2 ^ 32)) a =
      ((a.1 + (l.map (fun n => n.avg_bw)).sum) % 2 ^ 32,
        (l.map (fun n => n.peak_bw)).foldl max a.2) := by
  induction l generalizing a with
  | nil =>
    simp only [List.foldl_nil, List.map_nil, List.sum_nil, Nat.add_zero]
    rw [Nat.mod_eq_of_lt h1]
  | cons n l ih =>
    have hn := hu n (List.mem_cons_self n l)
    have hmax : max a.2 n.peak_bw < 2 ^ 32 := max_lt h2 hn.2
    rw [List.foldl_cons, ih _ (Nat.mod_lt _ (by norm_num)) (Nat.mod_lt _ (by norm_num))
      (fun m hm => hu m (List.mem_cons_of_mem n hm))]
    simp only [icc_std_aggregate, List.map_cons, List.sum_cons, List.foldl_cons, Nat.mod_mod,
      Nat.mod_eq_of_lt hmax, Nat.mod_add_mod, Nat.add_assoc]

/-- With the standard callback installed by the probe function, the two
accumulators of `qcom_icc_spdm_set` hold the sum of all average requests
modulo 2^32 and the largest peak request. -/
theorem qcom_icc_spdm_set_agg_std (qp : qcom_spdm_tz_icc_provider)
    (hagg : qp.aggregate = icc_std_aggregate)
    (hu : ∀ n ∈ qp.nodes, n.avg_bw < 2 ^ 32 ∧ n.peak_bw < 2 ^ 32) :
    qcom_icc_spdm_set_agg qp = (aggregated_avg qp.nodes % 2 ^ 32, aggregated_peak qp.nodes) := by
  unfold qcom_icc_spdm_set_agg aggregated_avg aggregated_peak
  rw [hagg, std_agg_fold qp.nodes (0, 0) (by norm_num) (by norm_num) hu]
  simp

theorem flag_transitions (before after : Bool) (x : Nat) (h : after = true ↔ 0 < x) :
    ((before = false ∧ after = true) ↔ (before = false ∧ 0 < x)) ∧
    ((before = true ∧ after = false) ↔ (before = true ∧ x = 0)) ∧
    (¬ (before = false ∧ 0 < x) → ¬ (before = true ∧ x = 0) → after = before) := by
  cases before <;> cases after <;> simp at h ⊢ <;> omega

/-- **C4, as stated, fails**: the two nodes of the provider each ask for an
average of `0x80000000` (a `u32` value) and no peak.  The aggregated
bandwidth, the larger of the summed averages and the largest peak times 1000
over 16, is positive, but the 32-bit sum of the averages is 0, the rate is 0
and the enabled flag, true before, is false after `qcom_icc_spdm_set`. -/
theorem c4_summed_averages_wrap_to_zero :
    (0x80000000 < 2 ^ 32) ∧
    0 < aggregated_bandwidth (sample_provider_two 0x80000000 0 0x80000000 0 true).nodes ∧
    qcom_icc_spdm_set_rate (sample_provider_two 0x80000000 0 0x80000000 0 true)
      ⟨apss_spdm_mas, 0x80000000, 0⟩ = 0 ∧
    (qcom_icc_spdm_set sample_scm_h (const_transport 0 0)
      (sample_provider_two 0x80000000 0 0x80000000 0 true)
      ⟨apss_spdm_mas, 0x80000000, 0⟩ ⟨spdm_slv, 0x80000000, 0⟩ scm_world_ready).2.1.enabled
      = false := by
  decide

/-- **C4, amended.** For a provider with the standard aggregation callback,
nodes with `u32` requests and a source node of this driver, whatever the prior
value of the enabled flag: `qcom_icc_spdm_set` returns 0 and leaves the flag
true exactly when the aggregated bandwidth is greater than zero, where the
aggregated average is the sum of the average requests of all nodes modulo
2^32 and the aggregated peak is the largest peak request of a node.  So the
flag goes from false to true exactly when this aggregate is positive while
disabled, from true to false exactly when it is zero while enabled, and keeps
its value otherwise.  When the sum of the average requests is below 2^32 the
aggregate is the aggregated bandwidth as written, and the flag is true exactly
when some node has a non-zero average or peak request. -/
theorem c4_enabled_iff_aggregate_positive (K : qcom_scm_h) (tz : scm_transport)
    (qp : qcom_spdm_tz_icc_provider) (src dst : icc_node) (w : scm_world)
    (hagg : qp.aggregate = icc_std_aggregate)
    (hu : ∀ n ∈ qp.nodes, n.avg_bw < 2 ^ 32 ∧ n.peak_bw < 2 ^ 32)
    (hsrc : src.data ∈ spdm_cpu_nodes) :
    (qcom_icc_spdm_set K tz qp src dst w).1 = 0 ∧
    ((qcom_icc_spdm_set K tz qp src dst w).2.1.enabled = true ↔
      0 < aggregated_bandwidth_u32 qp.nodes) ∧
    ((qp.enabled = false ∧ (qcom_icc_spdm_set K tz qp src dst w).2.1.enabled = true) ↔
      (qp.enabled = false ∧ 0 < aggregated_bandwidth_u32 qp.nodes)) ∧
    ((qp.enabled = true ∧ (qcom_icc_spdm_set K tz qp src dst w).2.1.enabled = false) ↔
      (qp.enabled = true ∧ aggregated_bandwidth_u32 qp.nodes = 0)) ∧
    (¬ (qp.enabled = false ∧ 0 < aggregated_bandwidth_u32 qp.nodes) →
      ¬ (qp.enabled = true ∧ aggregated_bandwidth_u32 qp.nodes = 0) →
      (qcom_icc_spdm_set K tz qp src dst w).2.1.enabled = qp.enabled) ∧
    (aggregated_avg qp.nodes < 2 ^ 32 →
      aggregated_bandwidth_u32 qp.nodes = aggregated_bandwidth qp.nodes ∧
      ((qcom_icc_spdm_set K tz qp src dst w).2.1.enabled = true ↔
        0 < aggregated_bandwidth qp.nodes) ∧
      ((qcom_icc_spdm_set K tz qp src dst w).2.1.enabled = true ↔
        ∃ n ∈ qp.nodes, 0 < n.avg_bw ∨ 0 < n.peak_bw)) := by
  obtain ⟨hen, hret⟩ := qcom_icc_spdm_set_enabled K tz qp src dst w
  rw [qcom_icc_spdm_set_rate_eq qp src hsrc, qcom_icc_spdm_set_agg_std qp hagg hu] at hen
  have hen' : (qcom_icc_spdm_set K tz qp src dst w).2.1.enabled = true ↔
      0 < aggregated_bandwidth_u32 qp.nodes := hen
  obtain ⟨t1, t2, t3⟩ := flag_transitions qp.enabled
    (qcom_icc_spdm_set K tz qp src dst w).2.1.enabled _ hen'
  refine ⟨hret, hen', t1, t2, t3, ?_⟩
  intro hlt
  have heq : aggregated_bandwidth_u32 qp.nodes = aggregated_bandwidth qp.nodes := by
    unfold aggregated_bandwidth_u32 aggregated_bandwidth
    rw [Nat.mod_eq_of_lt hlt]
  refine ⟨heq, by rw [← heq]; exact hen', ?_⟩
  rw [hen', heq]
  have hpos : 0 < aggregated_bandwidth qp.nodes ↔
      0 < aggregated_avg qp.nodes ∨ 0 < aggregated_peak qp.nodes := by
    unfold aggregated_bandwidth
    rw [← lt_max_iff]
    omega
  rw [hpos]
  unfold aggregated_avg aggregated_peak
  rw [sum_pos_iff_exists, foldl_max_pos_iff]
  simp only [List.mem_map, exists_exists_and_eq_and, Nat.lt_irrefl, false_or]
  constructor
  · rintro (⟨n, hn, h⟩ | ⟨n, hn, h⟩)
    · exact ⟨n, hn, Or.inl h⟩
    · exact ⟨n, hn, Or.inr h⟩
  · rintro ⟨n, hn, h | h⟩
    · exact Or.inl ⟨n, hn, h⟩
    · exact Or.inr ⟨n, hn, h⟩

theorem c4_enabled_iff_aggregate_positive_witness :
    ((sample_provider_two 3 7 5 2 false).aggregate = icc_std_aggregate) ∧
    (∀ n ∈ (sample_provider_two 3 7 5 2 false).nodes, n.avg_bw < 2 ^ 32 ∧ n.peak_bw < 2 ^ 32) ∧
    (apss_spdm_mas ∈ spdm_cpu_nodes) ∧
    (qcom_icc_spdm_set sample_scm_h (const_transport 0 0) (sample_provider_two 3 7 5 2 false)
      ⟨apss_spdm_mas, 3, 7⟩ ⟨spdm_slv, 5, 2⟩ scm_world_ready).2.1.enabled = true ∧
    0 < aggregated_bandwidth_u32 (sample_provider_two 3 7 5 2 false).nodes :=
  have hu : ∀ n ∈ (sample_provider_two 3 7 5 2 false).nodes,
      n.avg_bw < 2 ^ 32 ∧ n.peak_bw < 2 ^ 32 := by decide
  have h := c4_enabled_iff_aggregate_positive sample_scm_h (const_transport 0 0)
    (sample_provider_two 3 7 5 2 false) ⟨apss_spdm_mas, 3, 7⟩ ⟨spdm_slv, 5, 2⟩ scm_world_ready
    rfl hu (by decide)
  ⟨rfl, hu, by decide, h.2.1.mpr (by decide), by decide⟩

/-! ### What the entry points hand to the transport -/

theorem send_send (w : scm_world) (a b : List scm_invocation) :
    (w.send a).send b = w.send (a ++ b) := by
  unfold scm_world.send
  cases h : w.ready
  · simp [h]
  · have h2 : scm_world.ready { w with calls := w.calls ++ a } = true := by
      simpa [scm_world.ready] using h
    simp [h2, List.append_assoc]

theorem send_nil (w : scm_world) : w.send [] = w := by
  unfold scm_world.send
  cases h : w.ready <;> simp

theorem send_dev (w : scm_world) (a : List scm_invocation) : (w.send a).dev = w.dev := by
  unfold scm_world.send
  cases h : w.ready <;> simp [scm_world.dev]

theorem issued_send (w : scm_world) (a : List scm_invocation) :
    issued w (w.send a) = if w.ready then a else [] := by
  unfold scm_world.send issued
  cases h : w.ready <;> simp

theorem qcom_scm_spdm_call_world (K : qcom_scm_h) (tz : scm_transport) (args : List Nat)
    (n : Nat) (w : scm_world) :
    (qcom_scm_spdm_call K tz args n w).2 = w.send [⟨w.dev, qcom_scm_spdm_desc K args n⟩] := by
  unfold qcom_scm_spdm_call scm_world.send scm_world.ready scm_world.dev
  cases h : w.__spdm with
  | none => simp
  | some spdm =>
    by_cases hc : (spdm.is_smc && spdm.dev.isNone) = true
    · simp [hc]
    · simp [hc]

theorem store_loop_ports (a b c : Nat) (ports : List Nat) (n : Nat) (hn : n ≤ 3) :
    store_loop [a, b, c] 3 ports n = [a, b, c] := by
  interval_cases n <;> simp [store_loop, List.range_succ]

theorem store_loop_perflevel (a b : Nat) (f : List Nat) (n : Nat) (hn : n ≤ 3) :
    pad6 ([a, b] ++ f.take n) =
      (List.range 6).map (fun i => if i < 5 then (store_loop [a, b, 0, 0, 0] 2 f n).getD i 0
        else 0) := by
  interval_cases n <;>
    rcases f with _ | ⟨x, _ | ⟨y, _ | ⟨z, rest⟩⟩⟩ <;>
    simp [store_loop, List.range_succ, pad6]

/-- The state an entry-point call leaves: the zero-filled vectors of the
arguments it supplies are handed to the transport, in order. -/
theorem run_world (K : qcom_scm_h) (tz : scm_transport) (e : spdm_api) (w : scm_world) :
    (e.run K tz w).2 = w.send ((e.passed K).map (fun a => spdm_vector K w.dev (pad6 a))) := by
  cases e with
  | cfg_bw_votes c up down max =>
    simp [spdm_api.run, spdm_api.passed, qcom_scm_spdm_cfg_bw_votes, qcom_scm_spdm_call_world,
      qcom_scm_spdm_desc, spdm_vector, pad6, QCOM_SPDM_NARGS, QCOM_SPDM_VOTE_MULTI,
      List.range_succ]
  | cfg_cci_thresh c freq =>
    simp [spdm_api.run, spdm_api.passed, qcom_scm_spdm_cfg_cci_thresh,
      qcom_scm_spdm_call_world, qcom_scm_spdm_desc, spdm_vector, pad6, QCOM_SPDM_NARGS,
      List.range_succ]
  | get_client_bw c =>
    simp [spdm_api.run, spdm_api.passed, qcom_scm_spdm_get_client_bw,
      qcom_scm_spdm_call_world, qcom_scm_spdm_desc, spdm_vector, pad6, QCOM_SPDM_NARGS,
      List.range_succ]
  | cfg_ports c ports n =>
    by_cases hn : 3 < n
    · simp [spdm_api.run, spdm_api.passed, qcom_scm_spdm_cfg_ports, hn, send_nil]
    · have hle : n ≤ 3 := Nat.le_of_not_lt hn
      simp [spdm_api.run, spdm_api.passed, qcom_scm_spdm_cfg_ports, hn,
        store_loop_ports _ _ _ ports n hle,
        qcom_scm_spdm_call_world, qcom_scm_spdm_desc, spdm_vector, pad6, QCOM_SPDM_NARGS,
        List.range_succ]
  | cfg_single_port c port =>
    simp [spdm_api.run, spdm_api.passed, qcom_scm_spdm_cfg_single_port,
      qcom_scm_spdm_call_world, qcom_scm_spdm_desc, spdm_vector, pad6, QCOM_SPDM_NARGS,
      List.range_succ]
  | cfg_filter c aup adn bucket_sz =>
    simp [spdm_api.run, spdm_api.passed, qcom_scm_spdm_cfg_filter,
      qcom_scm_spdm_call_world, qcom_scm_spdm_desc, spdm_vector, pad6, QCOM_SPDM_NARGS,
      List.range_succ]
  | cfg_perflevel c pl_freqs n =>
    by_cases hn : 3 < n
    · simp [spdm_api.run, spdm_api.passed, qcom_scm_spdm_cfg_perflevel, hn, send_nil]
    · have hle : n ≤ 3 := Nat.le_of_not_lt hn
      have hp := store_loop_perflevel K.QCOM_SCM_SPDM_CFG_PERFLEVEL c pl_freqs n hle
      simp only [spdm_api.run, spdm_api.passed, qcom_scm_spdm_cfg_perflevel, hn, if_false,
        qcom_scm_spdm_call_world, qcom_scm_spdm_desc, spdm_vector, QCOM_SPDM_NARGS,
        List.map_cons, List.map_nil, hp, List.length_cons, List.length_nil]
  | cfg_cci_resp_time c r =>
    simp [spdm_api.run, spdm_api.passed, qcom_scm_spdm_cfg_cci_resp_time,
      qcom_scm_spdm_cfg_trilevel, qcom_scm_spdm_cfg_lvl_cmd, send_send, send_dev,
      qcom_scm_spdm_call_world, qcom_scm_spdm_desc, spdm_vector, pad6, QCOM_SPDM_NARGS,
      List.range_succ]
  | cfg_reject_rate c r =>
    simp [spdm_api.run, spdm_api.passed, qcom_scm_spdm_cfg_reject_rate,
      qcom_scm_spdm_cfg_trilevel, qcom_scm_spdm_cfg_lvl_cmd, send_send, send_dev,
      qcom_scm_spdm_call_world, qcom_scm_spdm_desc, spdm_vector, pad6, QCOM_SPDM_NARGS,
      List.range_succ]
  | cfg_resp_time c r =>
    simp [spdm_api.run, spdm_api.passed, qcom_scm_spdm_cfg_resp_time,
      qcom_scm_spdm_cfg_trilevel, qcom_scm_spdm_cfg_lvl_cmd, send_send, send_dev,
      qcom_scm_spdm_call_world, qcom_scm_spdm_desc, spdm_vector, pad6, QCOM_SPDM_NARGS,
      List.range_succ]
  | enable c en =>
    cases en <;>
    simp [spdm_api.run, spdm_api.passed, qcom_scm_spdm_enable,
      qcom_scm_spdm_call_world, qcom_scm_spdm_desc, spdm_vector, pad6, QCOM_SPDM_NARGS,
      List.range_succ]

theorem run_list_world (K : qcom_scm_h) (tz : scm_transport) (l : List spdm_api)
    (w : scm_world) :
    l.foldl (fun w e => (e.run K tz w).2) w =
      w.send ((l.flatMap (spdm_api.passed K)).map (fun a => spdm_vector K w.dev (pad6 a))) := by
  induction l generalizing w with
  | nil => simp [send_nil]
  | cons e l ih =>
    rw [List.foldl_cons, ih, run_world, send_send, send_dev]
    simp

theorem qcom_spdm_tz_setup_world (K : qcom_scm_h) (tz : scm_transport)
    (d : qcom_spdm_tz_desc) (w : scm_world) :
    qcom_spdm_tz_setup K tz d w =
      (0, w.send (((qcom_spdm_tz_setup_api d).flatMap (spdm_api.passed K)).map
        (fun a => spdm_vector K w.dev (pad6 a)))) := by
  rw [← run_list_world]
  rfl

theorem setup_vectors_of_match (K : qcom_scm_h) (d : qcom_spdm_tz_desc)
    (hd : d ∈ spdm_tz_of_match) :
    ((qcom_spdm_tz_setup_api d).flatMap (spdm_api.passed K)).map pad6 = replay_vectors K d := by
  simp only [spdm_tz_of_match, List.mem_cons, List.mem_singleton, List.mem_nil_iff,
    or_false] at hd
  rcases hd with h | h | h <;> subst h <;> rfl

/-- **C6.** For each of the three descriptors and a marshaller that reaches
the transport, `qcom_spdm_tz_setup` returns 0 and hands to the transport, in
this order and with nothing else, the fifteen vectors of `replay_vectors`:
single port `(client, 1, port)`, filter, performance-level frequencies,
rejection rate, response time and CCI response time (low, medium, high each),
CCI threshold, bandwidth votes with the multiplier 2, and the enable call; all
carry the fixed SPDM tags.  For msm8998 the filter vector is
`[CFG_FILTER, 0, 12, 15, 8, 0]` and the bandwidth-votes vector is
`[CFG_BW_VOTES, 0, 1000, 1000, 10000, 2]`. -/
theorem c6_setup_replays_descriptor (K : qcom_scm_h) (tz : scm_transport)
    (d : qcom_spdm_tz_desc) (w : scm_world)
    (hd : d ∈ spdm_tz_of_match) (hw : w.ready = true) :
    qcom_spdm_tz_setup K tz d w =
      (0, { w with calls := w.calls ++ (replay_vectors K d).map (spdm_vector K w.dev) }) ∧
    (replay_vectors K msm8998_spdm_cpu_desc).get? 1 =
      some [K.QCOM_SCM_SPDM_CFG_FILTER, 0, 12, 15, 8, 0] ∧
    (replay_vectors K msm8998_spdm_cpu_desc).get? 13 =
      some [K.QCOM_SCM_SPDM_CFG_BW_VOTES, 0, 1000, 1000, 10000, 2] := by
  refine ⟨?_, rfl, rfl⟩
  rw [qcom_spdm_tz_setup_world, ← setup_vectors_of_match K d hd]
  simp [scm_world.send, hw, List.map_map, Function.comp_def]

theorem c6_setup_replays_descriptor_witness :
    (sdm660_spdm_cpu_desc ∈ spdm_tz_of_match) ∧ scm_world_ready.ready = true ∧
    qcom_spdm_tz_setup sample_scm_h (const_transport 0 0) sdm660_spdm_cpu_desc scm_world_ready =
      (0, { scm_world_ready with calls := (scm_world_ready.calls ++
        List.map (spdm_vector sample_scm_h scm_world_ready.dev)
          (replay_vectors sample_scm_h sdm660_spdm_cpu_desc)) }) :=
  ⟨by decide, by decide,
    (c6_setup_replays_descriptor sample_scm_h (const_transport 0 0) sdm660_spdm_cpu_desc
      scm_world_ready (by decide) (by decide)).1⟩

theorem qcom_scm_spdm_enable_world (K : qcom_scm_h) (tz : scm_transport) (c : Nat) (en : Bool)
    (w : scm_world) :
    (qcom_scm_spdm_enable K tz c en w).2 =
      w.send [spdm_vector K w.dev
        [if en then K.QCOM_SCM_SPDM_ENABLE else K.QCOM_SCM_SPDM_DISABLE, c, 0, 0, 0, 0]] := by
  have h := run_world K tz (spdm_api.enable c en) w
  simpa [spdm_api.run, spdm_api.passed, pad6] using h

theorem setup_issues_two_or_more (K : qcom_scm_h) (d : qcom_spdm_tz_desc) (dev : Option Nat) :
    2 ≤ (((qcom_spdm_tz_setup_api d).flatMap (spdm_api.passed K)).map
      (fun a => spdm_vector K dev (pad6 a))).length := by
  simp [qcom_spdm_tz_setup_api, spdm_api.passed, List.flatMap_cons]

/-- **C5.** (a) A call of `qcom_icc_spdm_set` made while the provider is
enabled and the rate is positive hands exactly one call to the transport, the
enable call (none at all when the marshaller does not reach the transport):
no configuration call of the replay is issued.  (b) On a marshaller that
reaches the transport, the calls of the replay `qcom_spdm_tz_setup` open the
calls issued by `qcom_icc_spdm_set` if and only if the provider was disabled
on entry and the rate is positive.  (c) In that case the state is the one the
replay followed by the enable call leaves. -/
theorem c5_replay_only_when_coming_from_disabled (K : qcom_scm_h) (tz : scm_transport)
    (qp : qcom_spdm_tz_icc_provider) (src dst : icc_node) (w : scm_world) :
    (qp.enabled = true → 0 < qcom_icc_spdm_set_rate qp src →
      issued w (qcom_icc_spdm_set K tz qp src dst w).2.2 =
        if w.ready then
          [spdm_vector K w.dev [K.QCOM_SCM_SPDM_ENABLE, qp.spdm.client, 0, 0, 0, 0]]
        else []) ∧
    (w.ready = true →
      (issued w (qcom_spdm_tz_setup K tz qp.spdm w).2 <+:
          issued w (qcom_icc_spdm_set K tz qp src dst w).2.2 ↔
        (qp.enabled = false ∧ 0 < qcom_icc_spdm_set_rate qp src))) ∧
    (qp.enabled = false → 0 < qcom_icc_spdm_set_rate qp src →
      (qcom_icc_spdm_set K tz qp src dst w).2.2 =
        (qcom_scm_spdm_enable K tz qp.spdm.client true
          (qcom_spdm_tz_setup K tz qp.spdm w).2).2) := by
  refine ⟨?_, ?_, ?_⟩
  · intro he hr
    have hne : qcom_icc_spdm_set_rate qp src ≠ 0 := Nat.pos_iff_ne_zero.mp hr
    rw [qcom_icc_spdm_set_eq]
    simp [he, hr, hne, qcom_scm_spdm_enable_world, issued_send]
  · intro hw
    constructor
    · intro hpre
      by_contra hcond
      have hlen := hpre.length_le
      rw [qcom_spdm_tz_setup_world] at hlen
      simp only [issued_send, hw, if_true] at hlen
      have h2 := setup_issues_two_or_more K qp.spdm w.dev
      have h1 : (issued w (qcom_icc_spdm_set K tz qp src dst w).2.2).length = 1 := by
        rw [qcom_icc_spdm_set_eq]
        rw [if_neg (fun h => hcond ⟨h.2, h.1⟩)]
        split <;> simp [qcom_scm_spdm_enable_world, issued_send, hw]
      omega
    · rintro ⟨he, hr⟩
      rw [qcom_icc_spdm_set_eq]
      simp only [he, hr, and_self, if_true]
      rw [qcom_scm_spdm_enable_world, qcom_spdm_tz_setup_world]
      simp only [send_send, issued_send, hw, if_true]
      exact List.prefix_append _ _
  · intro he hr
    rw [qcom_icc_spdm_set_eq]
    simp [he, hr]

theorem c5_replay_only_when_coming_from_disabled_witness :
    (sample_provider 3 7 true).enabled = true ∧
    0 < qcom_icc_spdm_set_rate (sample_provider 3 7 true) ⟨apss_spdm_mas, 3, 7⟩ ∧
    issued scm_world_ready
      (qcom_icc_spdm_set sample_scm_h (const_transport 0 0) (sample_provider 3 7 true)
        ⟨apss_spdm_mas, 3, 7⟩ ⟨spdm_slv, 0, 0⟩ scm_world_ready).2.2 =
      (if scm_world_ready.ready then
        [spdm_vector sample_scm_h scm_world_ready.dev
          [sample_scm_h.QCOM_SCM_SPDM_ENABLE, (sample_provider 3 7 true).spdm.client,
            0, 0, 0, 0]]
      else []) :=
  ⟨rfl, by decide,
    (c5_replay_only_when_coming_from_disabled sample_scm_h (const_transport 0 0)
      (sample_provider 3 7 true) ⟨apss_spdm_mas, 3, 7⟩ ⟨spdm_slv, 0, 0⟩ scm_world_ready).1
      rfl (by decide)⟩

theorem pad6_spec (a : List Nat) (h : a.length ≤ 6) :
    (pad6 a).length = 6 ∧ (pad6 a).take a.length = a ∧
    (pad6 a).drop a.length = List.replicate (6 - a.length) 0 := by
  refine ⟨?_, ?_, ?_⟩
  · simp [pad6]; omega
  · simp [pad6]
  · simp [pad6]

theorem passed_length_le (K : qcom_scm_h) (e : spdm_api) (a : List Nat)
    (ha : a ∈ e.passed K) : a.length ≤ 6 := by
  cases e with
  | cfg_ports c ports n =>
    by_cases hn : 3 < n <;> simp [spdm_api.passed, hn] at ha
    subst ha; simp
  | cfg_perflevel c pl_freqs n =>
    by_cases hn : 3 < n <;> simp [spdm_api.passed, hn] at ha
    subst ha
    simp
    omega
  | cfg_cci_resp_time c r =>
    simp [spdm_api.passed] at ha
    rcases ha with h | h | h <;> subst h <;> simp
  | cfg_reject_rate c r =>
    simp [spdm_api.passed] at ha
    rcases ha with h | h | h <;> subst h <;> simp
  | cfg_resp_time c r =>
    simp [spdm_api.passed] at ha
    rcases ha with h | h | h <;> subst h <;> simp
  | _ =>
    simp [spdm_api.passed] at ha
    subst ha; simp

theorem issued_self (w : scm_world) : issued w w = [] := by
  simp [issued]

/-- The calls of the initialisation: the version query, once, when the
allocation succeeded, the SMC flag is set and there is a device. -/
theorem init_issued (K : qcom_scm_h) (tz : scm_transport) (alloc_ok : Bool)
    (dev : Option Nat) (flags : Nat) (w : scm_world) :
    issued w (__qcom_scm_spdm_init K tz alloc_ok dev flags w).2 =
      if alloc_ok && (flags &&& K.SCM_HAS_SPDM_SMC) != 0 && dev.isSome then
        [spdm_vector K dev [K.QCOM_SCM_SPDM_GET_VERSION, 0, 0, 0, 0, 0]]
      else [] := by
  have hget : ∀ (m : Nat) (w1 : scm_world), (qcom_scm_spdm_get_version K tz m w1).2 =
      w1.send [spdm_vector K w1.dev [K.QCOM_SCM_SPDM_GET_VERSION, 0, 0, 0, 0, 0]] := by
    intro m w1
    have hd : (⟨w1.dev, qcom_scm_spdm_desc K [K.QCOM_SCM_SPDM_GET_VERSION] 1⟩ : scm_invocation)
        = spdm_vector K w1.dev [K.QCOM_SCM_SPDM_GET_VERSION, 0, 0, 0, 0, 0] := by
      simp [qcom_scm_spdm_desc, spdm_vector, QCOM_SPDM_NARGS, List.range_succ]
    unfold qcom_scm_spdm_get_version
    simp only [List.length_singleton]
    split <;> simp only [qcom_scm_spdm_call_world, hd]
  cases alloc_ok
  · simp [__qcom_scm_spdm_init, issued_self]
  · cases hs : (flags &&& K.SCM_HAS_SPDM_SMC) != 0
    · simp [__qcom_scm_spdm_init, hs, issued_self]
    · have hi : (__qcom_scm_spdm_init K tz true dev flags w).2.calls =
          (qcom_scm_spdm_get_version K tz QCOM_SPDM_MAX_VERSION
            { w with __spdm := some ⟨dev, true⟩ }).2.calls := by
        simp only [__qcom_scm_spdm_init, hs, Bool.not_true, Bool.false_eq_true, if_false]
        split <;> rfl
      unfold issued
      rw [hi, hget]
      cases dev with
      | none => simp [scm_world.send, scm_world.ready]
      | some d => simp [scm_world.send, scm_world.ready, scm_world.dev]

/-- For every entry-point call and every state, the calls handed to the
transport are the argument arrays of `spdm_api.passed`, each zero-filled to
six slots, in order (and nothing when the marshaller does not reach the
transport).  Every such call carries the SPDM service id, the SPDM command id,
the six-argument descriptor and the SIP owner, and has exactly six argument
slots.  `qcom_scm_spdm_cfg_cci_thresh(c, f)` sends
`[CFG_MAXCCIFREQ, c, f, 0, 0, 0]`, `qcom_scm_spdm_enable(c, false)` sends
`[DISABLE, c, 0, 0, 0, 0]`, and the initialisation sends at most the version
query `[GET_VERSION, 0, 0, 0, 0, 0]`. -/
theorem handed_on_vectors (K : qcom_scm_h) (tz : scm_transport) (e : spdm_api)
    (w : scm_world) (c f : Nat) (alloc_ok : Bool) (dev : Option Nat) (flags : Nat) :
    issued w (e.run K tz w).2 =
      (if w.ready then (e.passed K).map (fun a => spdm_vector K w.dev (pad6 a)) else []) ∧
    (∀ a ∈ e.passed K, (pad6 a).length = 6 ∧ (pad6 a).take a.length = a ∧
      (pad6 a).drop a.length = List.replicate (6 - a.length) 0) ∧
    (∀ inv ∈ issued w (e.run K tz w).2,
      inv.desc.svc = K.QCOM_SCM_SVC_SPDM ∧ inv.desc.cmd = K.QCOM_SCM_SPDM_CMD ∧
      inv.desc.arginfo = K.QCOM_SCM_ARGS 6 ∧ inv.desc.owner = K.ARM_SMCCC_OWNER_SIP ∧
      inv.desc.args.length = 6) ∧
    issued w (qcom_scm_spdm_cfg_cci_thresh K tz c f w).2 =
      (if w.ready then
        [spdm_vector K w.dev [K.QCOM_SCM_SPDM_CFG_MAXCCIFREQ, c, f, 0, 0, 0]] else []) ∧
    issued w (qcom_scm_spdm_enable K tz c false w).2 =
      (if w.ready then
        [spdm_vector K w.dev [K.QCOM_SCM_SPDM_DISABLE, c, 0, 0, 0, 0]] else []) ∧
    issued w (__qcom_scm_spdm_init K tz alloc_ok dev flags w).2 =
      (if alloc_ok && (flags &&& K.SCM_HAS_SPDM_SMC) != 0 && dev.isSome then
        [spdm_vector K dev [K.QCOM_SCM_SPDM_GET_VERSION, 0, 0, 0, 0, 0]]
      else []) := by
  have h1 : issued w (e.run K tz w).2 =
      (if w.ready then (e.passed K).map (fun a => spdm_vector K w.dev (pad6 a)) else []) := by
    rw [run_world, issued_send]
  refine ⟨h1, ?_, ?_, ?_, ?_, init_issued K tz alloc_ok dev flags w⟩
  · intro a ha
    exact pad6_spec a (passed_length_le K e a ha)
  · intro inv hinv
    rw [h1] at hinv
    cases hr : w.ready
    · simp [hr] at hinv
    · simp only [hr, if_true, List.mem_map] at hinv
      obtain ⟨a, ha, rfl⟩ := hinv
      exact ⟨rfl, rfl, rfl, rfl, (pad6_spec a (passed_length_le K e a ha)).1⟩
  · have h := run_world K tz (spdm_api.cfg_cci_thresh c f) w
    simp only [spdm_api.run, spdm_api.passed] at h
    rw [h, issued_send]
    simp [pad6]
  · rw [qcom_scm_spdm_enable_world, issued_send]
    simp

/-- The arrays handed on are the supplied arguments for every entry-point call
except a call of `cfg_ports` that stores past its array (count 1 to 3). -/
theorem supplied_eq_passed (K : qcom_scm_h) (e : spdm_api)
    (h : ∀ c ports n, e = spdm_api.cfg_ports c ports n →
      qcom_scm_spdm_cfg_ports_overruns n = false) :
    e.supplied K = e.passed K := by
  cases e with
  | cfg_ports c ports n =>
    have hno := h c ports n rfl
    have hiff := (cfg_overruns n).1
    by_cases hn : 3 < n
    · simp [spdm_api.supplied, spdm_api.passed, hn]
    · have h0 : n = 0 := by
        by_contra hne
        have : qcom_scm_spdm_cfg_ports_overruns n = true := hiff.mpr ⟨by omega, by omega⟩
        rw [hno] at this
        exact Bool.noConfusion this
      subst h0
      simp [spdm_api.supplied, spdm_api.passed]
  | _ => rfl

/-- Away from `cfg_ports` with 1 to 3 ports, every call handed to the
transport is the zero-filled vector of the supplied arguments. -/
theorem supplied_vectors_off_cfg_ports (K : qcom_scm_h) (tz : scm_transport) (e : spdm_api)
    (w : scm_world)
    (h : ∀ c ports n, e = spdm_api.cfg_ports c ports n →
      qcom_scm_spdm_cfg_ports_overruns n = false) :
    issued w (e.run K tz w).2 =
      (if w.ready then (e.supplied K).map (fun a => spdm_vector K w.dev (pad6 a)) else []) := by
  rw [supplied_eq_passed K e h, run_world, issued_send]

/-- **C7, at the failing input** (the defect is the one of C8).  With the
sample constants, `qcom_scm_spdm_cfg_ports(0, {24}, 1)` on an initialised
module is supplied the arguments `[CFG_PORTS, 0, 1, 24]`; zero-filled to six
slots that is `[5, 0, 1, 24, 0, 0]`.  The call stores past its three-element
array, and the vector it hands to the transport is `[5, 0, 1, 0, 0, 0]`: slot
3 does not hold the fourth supplied argument. -/
theorem c7_cfg_ports_slot_three_is_not_the_port :
    (spdm_api.cfg_ports 0 [24] 1).supplied sample_scm_h = [[5, 0, 1, 24]] ∧
    ((spdm_api.cfg_ports 0 [24] 1).supplied sample_scm_h).map pad6 = [[5, 0, 1, 24, 0, 0]] ∧
    qcom_scm_spdm_cfg_ports_overruns 1 = true ∧
    issued scm_world_ready
      ((spdm_api.cfg_ports 0 [24] 1).run sample_scm_h (const_transport 0 0)
        scm_world_ready).2 =
      [spdm_vector sample_scm_h (some 1) [5, 0, 1, 0, 0, 0]] ∧
    issued scm_world_ready
      ((spdm_api.cfg_ports 0 [24] 1).run sample_scm_h (const_transport 0 0)
        scm_world_ready).2 ≠
      ((spdm_api.cfg_ports 0 [24] 1).supplied sample_scm_h).map
        (fun a => spdm_vector sample_scm_h (some 1) (pad6 a)) := by
  decide

/-- On a marshaller with a device, `qcom_scm_spdm_cfg_ports`
called with one port `p` hands `[CFG_PORTS, c, 1, 0, 0, 0]` to the transport:
the port is not in the vector, because only the three declared elements of
`args` are passed on.  `qcom_scm_spdm_cfg_single_port` hands on
`[CFG_PORTS, c, 1, p, 0, 0]`.  With up to three ports the vector of
`cfg_ports` holds the command, the client and the count, and zeros in slots 3
to 5. -/
theorem cfg_ports_drops_the_ports (K : qcom_scm_h) (tz : scm_transport) (c p d : Nat)
    (smc : Bool) (calls : List scm_invocation) (ports : List Nat) (n : Fin 4) :
    issued ⟨some ⟨some d, smc⟩, calls⟩
      (qcom_scm_spdm_cfg_ports K tz c [p] 1 ⟨some ⟨some d, smc⟩, calls⟩).2 =
      [spdm_vector K (some d) [K.QCOM_SCM_SPDM_CFG_PORTS, c, 1, 0, 0, 0]] ∧
    issued ⟨some ⟨some d, smc⟩, calls⟩
      (qcom_scm_spdm_cfg_single_port K tz c p ⟨some ⟨some d, smc⟩, calls⟩).2 =
      [spdm_vector K (some d) [K.QCOM_SCM_SPDM_CFG_PORTS, c, 1, p, 0, 0]] ∧
    issued ⟨some ⟨some d, smc⟩, calls⟩
      (qcom_scm_spdm_cfg_ports K tz c ports n.val ⟨some ⟨some d, smc⟩, calls⟩).2 =
      [spdm_vector K (some d) [K.QCOM_SCM_SPDM_CFG_PORTS, c, n.val, 0, 0, 0]] := by
  have hready : scm_world.ready ⟨some ⟨some d, smc⟩, calls⟩ = true := by
    simp [scm_world.ready]
  have hdev : scm_world.dev ⟨some ⟨some d, smc⟩, calls⟩ = some d := rfl
  have hn : ¬ 3 < n.val := by omega
  have h1 := run_world K tz (spdm_api.cfg_ports c [p] 1) ⟨some ⟨some d, smc⟩, calls⟩
  have h2 := run_world K tz (spdm_api.cfg_single_port c p) ⟨some ⟨some d, smc⟩, calls⟩
  have h3 := run_world K tz (spdm_api.cfg_ports c ports n.val) ⟨some ⟨some d, smc⟩, calls⟩
  simp only [spdm_api.run, spdm_api.passed] at h1 h2 h3
  rw [h1, h2, h3, issued_send, issued_send, issued_send, hready, hdev]
  simp [pad6, hn]

/-- **C8, at the failing input** (the general fact is
`cfg_ports_drops_the_ports`).  With the sample constants, client 0 and the
single port 24: `cfg_ports` sends `[5, 0, 1, 0, 0, 0]`, `cfg_single_port`
sends `[5, 0, 1, 24, 0, 0]`; the two vectors differ. -/
theorem c8_cfg_ports_vs_single_port_at_port_24 :
    (qcom_scm_spdm_cfg_ports sample_scm_h (const_transport 0 0) 0 [24] 1
      scm_world_ready).2.calls.map (fun i => i.desc.args) = [[5, 0, 1, 0, 0, 0]] ∧
    (qcom_scm_spdm_cfg_single_port sample_scm_h (const_transport 0 0) 0 24
      scm_world_ready).2.calls.map (fun i => i.desc.args) = [[5, 0, 1, 24, 0, 0]] ∧
    (qcom_scm_spdm_cfg_ports sample_scm_h (const_transport 0 0) 0 [24] 1 scm_world_ready).2 ≠
    (qcom_scm_spdm_cfg_single_port sample_scm_h (const_transport 0 0) 0 24 scm_world_ready).2 := by
  decide

/-! ### The panel sequencer -/

/-- **C9.** For every negative `e`: if the display-brightness command fails
with `e`, `tianma_r63350_on` returns `e` and the brightness command is the last
operation it performs (after the seven proprietary writes): no control-display
or power-save write, no display-on, no delay, no exit-sleep.  If the
brightness command succeeds and display-on fails with `e`, it returns `e` and
display-on is the last operation: the 20 ms delay and exit-sleep do not
happen. -/
theorem c9_power_on_aborts_on_failure (host : dsi_host) (t : List dsi_op) (e : Int)
    (he : e < 0) :
    (host (t ++ tianma_on_trace.take 7) (dsi_op.dcs_set_display_brightness 0x00ff) = e →
      tianma_r63350_on host t =
        (e, t ++ tianma_on_trace.take 7 ++ [dsi_op.dcs_set_display_brightness 0x00ff])) ∧
    (0 ≤ host (t ++ tianma_on_trace.take 7) (dsi_op.dcs_set_display_brightness 0x00ff) →
      host (t ++ tianma_on_trace.take 10) dsi_op.dcs_set_display_on = e →
      tianma_r63350_on host t =
        (e, t ++ tianma_on_trace.take 10 ++ [dsi_op.dcs_set_display_on])) ∧
    dsi_op.msleep 20 ∉ tianma_on_trace.take 10 ∧
    dsi_op.dcs_exit_sleep_mode ∉ tianma_on_trace.take 10 ∧
    dsi_op.dcs_set_display_on ∉ tianma_on_trace.take 7 ∧
    dsi_op.dcs_write MIPI_DCS_WRITE_CONTROL_DISPLAY [0x24] ∉ tianma_on_trace.take 7 ∧
    dsi_op.dcs_write MIPI_DCS_WRITE_POWER_SAVE [0x00] ∉ tianma_on_trace.take 7 := by
  refine ⟨?_, ?_, by decide, by decide, by decide, by decide, by decide⟩
  · intro h1
    simp only [tianma_on_trace, List.take, List.append_assoc, List.cons_append,
      List.nil_append] at h1 ⊢
    simp [tianma_r63350_on, dsi_generic_write_seq, mipi_dsi_cmd, h1, he]
  · intro h1 h2
    have h1n : ¬ host (t ++ tianma_on_trace.take 7)
        (dsi_op.dcs_set_display_brightness 0x00ff) < 0 := Int.not_lt.mpr h1
    simp only [tianma_on_trace, List.take, List.append_assoc, List.cons_append,
      List.nil_append] at h1n h2 ⊢
    simp [tianma_r63350_on, dsi_generic_write_seq, dsi_dcs_write_seq, mipi_dsi_cmd, h1n, h2, he]

theorem c9_power_on_aborts_on_failure_witness :
    ((-5 : Int) < 0) ∧
    dsi_host_failing (dsi_op.dcs_set_display_brightness 0x00ff) (-5)
      ([] ++ tianma_on_trace.take 7) (dsi_op.dcs_set_display_brightness 0x00ff) = -5 ∧
    tianma_r63350_on (dsi_host_failing (dsi_op.dcs_set_display_brightness 0x00ff) (-5)) [] =
      (-5, [] ++ tianma_on_trace.take 7 ++ [dsi_op.dcs_set_display_brightness 0x00ff]) :=
  ⟨by decide, by decide,
    (c9_power_on_aborts_on_failure
      (dsi_host_failing (dsi_op.dcs_set_display_brightness 0x00ff) (-5)) [] (-5)
      (by decide)).1 (by decide)⟩

/-- **C10.** When the brightness, display-on and exit-sleep commands succeed,
`tianma_r63350_on` returns 0 and performs exactly the operations of
`tianma_on_trace`, in order: the seven generic writes (register byte plus 1,
1, 8, 26, 30, 19 and 1 payload bytes), set-display-brightness `0x00ff`, the
DCS writes control-display `0x24` and power-save `0x00`, display-on, a 20 ms
delay, exit-sleep, a 120 ms delay. -/
theorem c10_power_on_success_trace (host : dsi_host) (t : List dsi_op)
    (h1 : 0 ≤ host (t ++ tianma_on_trace.take 7) (dsi_op.dcs_set_display_brightness 0x00ff))
    (h2 : 0 ≤ host (t ++ tianma_on_trace.take 10) dsi_op.dcs_set_display_on)
    (h3 : 0 ≤ host (t ++ tianma_on_trace.take 12) dsi_op.dcs_exit_sleep_mode) :
    tianma_r63350_on host t = (0, t ++ tianma_on_trace) ∧
    tianma_on_trace.length = 14 ∧
    (tianma_on_trace.take 7).map
      (fun op => match op with
        | dsi_op.generic_write s => (s.head?, s.length - 1)
        | _ => (none, 0)) =
      [(some 0xb0, 1), (some 0xd6, 1), (some 0xc2, 8), (some 0xd3, 26), (some 0xc7, 30),
        (some 0xc8, 19), (some 0xb0, 1)] ∧
    tianma_on_trace.drop 7 =
      [dsi_op.dcs_set_display_brightness 0x00ff,
        dsi_op.dcs_write MIPI_DCS_WRITE_CONTROL_DISPLAY [0x24],
        dsi_op.dcs_write MIPI_DCS_WRITE_POWER_SAVE [0x00],
        dsi_op.dcs_set_display_on, dsi_op.msleep 20,
        dsi_op.dcs_exit_sleep_mode, dsi_op.msleep 120] := by
  refine ⟨?_, by decide, by decide, by decide⟩
  have h1n := Int.not_lt.mpr h1
  have h2n := Int.not_lt.mpr h2
  have h3n := Int.not_lt.mpr h3
  simp only [tianma_on_trace, List.take, List.append_assoc, List.cons_append,
    List.nil_append] at h1n h2n h3n ⊢
  simp [tianma_r63350_on, dsi_generic_write_seq, dsi_dcs_write_seq, mipi_dsi_cmd, msleep,
    h1n, h2n, h3n]

theorem c10_power_on_success_trace_witness :
    (0 ≤ dsi_host_ok ([] ++ tianma_on_trace.take 7) (dsi_op.dcs_set_display_brightness 0x00ff)) ∧
    (0 ≤ dsi_host_ok ([] ++ tianma_on_trace.take 10) dsi_op.dcs_set_display_on) ∧
    (0 ≤ dsi_host_ok ([] ++ tianma_on_trace.take 12) dsi_op.dcs_exit_sleep_mode) ∧
    tianma_r63350_on dsi_host_ok [] = (0, [] ++ tianma_on_trace) :=
  ⟨by decide, by decide, by decide,
    (c10_power_on_success_trace dsi_host_ok [] (by decide) (by decide) (by decide)).1⟩

/-- **C11, as stated, fails**: with every command succeeding, the power-off
returns 0 but its operations are not the listed ones: after display-off it
waits 20 ms, a delay the list does not have. -/
theorem c11_power_off_has_a_20ms_delay :
    (0 ≤ dsi_host_ok [] dsi_op.dcs_set_display_off) ∧
    (0 ≤ dsi_host_ok (tianma_off_trace.take 6) dsi_op.dcs_enter_sleep_mode) ∧
    (tianma_r63350_off dsi_host_ok []).1 = 0 ∧
    (tianma_r63350_off dsi_host_ok []).2 ≠ tianma_off_trace_listed ∧
    dsi_op.msleep 20 ∈ (tianma_r63350_off dsi_host_ok []).2 ∧
    dsi_op.msleep 20 ∉ tianma_off_trace_listed := by
  decide

/-- **C11, amended.** When display-off and enter-sleep succeed,
`tianma_r63350_off` returns 0 and performs exactly, in order: display-off, a
20 ms delay, the writes `(0xb0: 00)` and `(0xd3: 26 bytes starting 13 33 99
b3)`, a 50 ms delay, the write `(0xb0: 03)`, enter-sleep, a 50 ms delay.
Leaving out the 20 ms delay gives the listed operations.  A failing
display-off returns its error at once: display-off is the only operation. -/
theorem c11_power_off_trace (host : dsi_host) (t : List dsi_op) (e : Int) :
    (0 ≤ host t dsi_op.dcs_set_display_off →
      0 ≤ host (t ++ tianma_off_trace.take 6) dsi_op.dcs_enter_sleep_mode →
      tianma_r63350_off host t = (0, t ++ tianma_off_trace)) ∧
    (e < 0 → host t dsi_op.dcs_set_display_off = e →
      tianma_r63350_off host t = (e, t ++ [dsi_op.dcs_set_display_off])) ∧
    tianma_off_trace.erase (dsi_op.msleep 20) = tianma_off_trace_listed ∧
    tianma_off_trace.map
      (fun op => match op with
        | dsi_op.generic_write s => (s.head?, s.length - 1)
        | _ => (none, 0)) =
      [(none, 0), (none, 0), (some 0xb0, 1), (some 0xd3, 26), (none, 0), (some 0xb0, 1),
        (none, 0), (none, 0)] := by
  refine ⟨?_, ?_, by decide, by decide⟩
  · intro h1 h2
    have h1n := Int.not_lt.mpr h1
    have h2n := Int.not_lt.mpr h2
    simp only [tianma_off_trace, List.take, List.append_assoc, List.cons_append,
      List.nil_append] at h2n ⊢
    simp [tianma_r63350_off, dsi_generic_write_seq, mipi_dsi_cmd, msleep, h1n, h2n]
  · intro he h1
    simp [tianma_r63350_off, mipi_dsi_cmd, h1, he]

theorem c11_power_off_trace_witness :
    (0 ≤ dsi_host_ok [] dsi_op.dcs_set_display_off) ∧
    (0 ≤ dsi_host_ok ([] ++ tianma_off_trace.take 6) dsi_op.dcs_enter_sleep_mode) ∧
    tianma_r63350_off dsi_host_ok [] = (0, [] ++ tianma_off_trace) :=
  ⟨by decide, by decide,
    (c11_power_off_trace dsi_host_ok [] 0).1 (by decide) (by decide)⟩

/-! ### Leaving the enabled state, and independence of the transport's answers -/

/-- **C12, as stated, fails**: the provider is enabled, the rate is zero and
the marshaller is uninitialised (`__spdm` is NULL); `qcom_icc_spdm_set` hands
no call to the transport, not one.  The state is reachable: on the same
uninitialised marshaller a disabled provider with a positive rate becomes
enabled. -/
theorem c12_no_disable_call_when_uninitialised :
    (sample_provider 0 0 true).enabled = true ∧
    qcom_icc_spdm_set_rate (sample_provider 0 0 true) ⟨apss_spdm_mas, 0, 0⟩ = 0 ∧
    issued scm_world_uninit
      (qcom_icc_spdm_set sample_scm_h (const_transport 0 0) (sample_provider 0 0 true)
        ⟨apss_spdm_mas, 0, 0⟩ ⟨spdm_slv, 0, 0⟩ scm_world_uninit).2.2 = [] ∧
    (issued scm_world_uninit
      (qcom_icc_spdm_set sample_scm_h (const_transport 0 0) (sample_provider 0 0 true)
        ⟨apss_spdm_mas, 0, 0⟩ ⟨spdm_slv, 0, 0⟩ scm_world_uninit).2.2).length ≠ 1 ∧
    (qcom_icc_spdm_set sample_scm_h (const_transport 0 0) (sample_provider 1 0 false)
      ⟨apss_spdm_mas, 1, 0⟩ ⟨spdm_slv, 0, 0⟩ scm_world_uninit).2.1.enabled = true := by
  decide

/-- **C12, amended.** For every descriptor: when `qcom_icc_spdm_set` is called
with the provider enabled and a rate of zero, it returns 0; on a marshaller
that reaches the transport (initialised, with its device) exactly one call is
handed to the transport, the disable call `[DISABLE, client, 0, 0, 0, 0]`, and
on any other marshaller no call is; no configuration call is issued.  The
enabled flag becomes false and the descriptor, the two clock references and
the node list of the provider are unchanged, as is `__spdm`. -/
theorem c12_disable_transition_only_disables (K : qcom_scm_h) (tz : scm_transport)
    (qp : qcom_spdm_tz_icc_provider) (src dst : icc_node) (w : scm_world)
    (he : qp.enabled = true) (hr : qcom_icc_spdm_set_rate qp src = 0) :
    (qcom_icc_spdm_set K tz qp src dst w).1 = 0 ∧
    issued w (qcom_icc_spdm_set K tz qp src dst w).2.2 =
      (if w.ready then
        [spdm_vector K w.dev [K.QCOM_SCM_SPDM_DISABLE, qp.spdm.client, 0, 0, 0, 0]]
      else []) ∧
    (w.ready = true → (issued w (qcom_icc_spdm_set K tz qp src dst w).2.2).length = 1) ∧
    (qcom_icc_spdm_set K tz qp src dst w).2.1.enabled = false ∧
    (qcom_icc_spdm_set K tz qp src dst w).2.1.spdm = qp.spdm ∧
    (qcom_icc_spdm_set K tz qp src dst w).2.1.core_clk = qp.core_clk ∧
    (qcom_icc_spdm_set K tz qp src dst w).2.1.cci_clk = qp.cci_clk ∧
    (qcom_icc_spdm_set K tz qp src dst w).2.1.nodes = qp.nodes ∧
    (qcom_icc_spdm_set K tz qp src dst w).2.2.__spdm = w.__spdm := by
  have hset : qcom_icc_spdm_set K tz qp src dst w =
      (0, { qp with enabled := false },
        w.send [spdm_vector K w.dev [K.QCOM_SCM_SPDM_DISABLE, qp.spdm.client, 0, 0, 0, 0]]) := by
    rw [qcom_icc_spdm_set_eq]
    simp [he, hr, qcom_scm_spdm_enable_world]
  rw [hset]
  refine ⟨rfl, issued_send _ _, ?_, rfl, rfl, rfl, rfl, rfl, ?_⟩
  · intro hw
    simp [issued_send, hw]
  · cases hw : w.ready <;> simp [scm_world.send, hw]

theorem c12_disable_transition_only_disables_witness :
    (sample_provider 0 0 true).enabled = true ∧
    qcom_icc_spdm_set_rate (sample_provider 0 0 true) ⟨apss_spdm_mas, 0, 0⟩ = 0 ∧
    issued scm_world_ready
      (qcom_icc_spdm_set sample_scm_h (const_transport 0 0) (sample_provider 0 0 true)
        ⟨apss_spdm_mas, 0, 0⟩ ⟨spdm_slv, 0, 0⟩ scm_world_ready).2.2 =
      (if scm_world_ready.ready then
        [spdm_vector sample_scm_h scm_world_ready.dev
          [sample_scm_h.QCOM_SCM_SPDM_DISABLE, (sample_provider 0 0 true).spdm.client,
            0, 0, 0, 0]]
      else []) :=
  ⟨rfl, by decide,
    (c12_disable_transition_only_disables sample_scm_h (const_transport 0 0)
      (sample_provider 0 0 true) ⟨apss_spdm_mas, 0, 0⟩ ⟨spdm_slv, 0, 0⟩ scm_world_ready
      rfl (by decide)).2.1⟩

/-- **C13.** For every descriptor, every state and any two transports,
whatever status and result values they answer: `qcom_spdm_tz_setup` returns 0
in both runs and leaves the same state, so it hands the same calls with the
same argument vectors to the transport in the same order; and
`qcom_icc_spdm_set` returns 0 in both runs, leaves the same provider (the same
enabled flag) and the same state.  No answer of the transport reaches the
caller. -/
theorem c13_replay_ignores_transport_answers (K : qcom_scm_h) (tz1 tz2 : scm_transport)
    (d : qcom_spdm_tz_desc) (qp : qcom_spdm_tz_icc_provider) (src dst : icc_node)
    (w : scm_world) :
    (qcom_spdm_tz_setup K tz1 d w).1 = 0 ∧ (qcom_spdm_tz_setup K tz2 d w).1 = 0 ∧
    (qcom_spdm_tz_setup K tz1 d w).2 = (qcom_spdm_tz_setup K tz2 d w).2 ∧
    issued w (qcom_spdm_tz_setup K tz1 d w).2 = issued w (qcom_spdm_tz_setup K tz2 d w).2 ∧
    (qcom_icc_spdm_set K tz1 qp src dst w).1 = 0 ∧
    (qcom_icc_spdm_set K tz2 qp src dst w).1 = 0 ∧
    (qcom_icc_spdm_set K tz1 qp src dst w).2.1.enabled =
      (qcom_icc_spdm_set K tz2 qp src dst w).2.1.enabled ∧
    qcom_icc_spdm_set K tz1 qp src dst w = qcom_icc_spdm_set K tz2 qp src dst w := by
  have hsetup : qcom_spdm_tz_setup K tz1 d w = qcom_spdm_tz_setup K tz2 d w := by
    rw [qcom_spdm_tz_setup_world, qcom_spdm_tz_setup_world]
  have hset : qcom_icc_spdm_set K tz1 qp src dst w = qcom_icc_spdm_set K tz2 qp src dst w := by
    rw [qcom_icc_spdm_set_eq, qcom_icc_spdm_set_eq]
    simp only [qcom_scm_spdm_enable_world, qcom_spdm_tz_setup_world]
  refine ⟨rfl, rfl, by rw [hsetup], by rw [hsetup], ?_, ?_, by rw [hset], hset⟩
  · exact (qcom_icc_spdm_set_enabled K tz1 qp src dst w).2
  · exact (qcom_icc_spdm_set_enabled K tz2 qp src dst w).2

/-! ### Negative results in the version handshake -/

theorem to_int_ge (x : Int) : -(2 ^ 31) ≤ to_int x := by
  unfold to_int
  norm_num
  omega

theorem qcom_scm_spdm_call_ret_ge (K : qcom_scm_h) (tz : scm_transport) (args : List Nat)
    (n : Nat) (w : scm_world) : -(2 ^ 31) ≤ (qcom_scm_spdm_call K tz args n w).1 := by
  cases h : w.__spdm with
  | none => simp [qcom_scm_spdm_call, h, ENOTSUPP]
  | some spdm =>
    by_cases hc : (spdm.is_smc && spdm.dev.isNone) = true
    · simp [qcom_scm_spdm_call, h, hc, ENODEV]
    · simp only [qcom_scm_spdm_call, h, hc, if_false, Bool.false_eq_true]
      by_cases hr : to_int (tz w.calls ⟨spdm.dev, qcom_scm_spdm_desc K args n⟩).ret ≠ 0
      · rw [if_pos hr]
        exact to_int_ge _
      · rw [if_neg hr]
        exact to_int_ge _

/-- A negative result of the call passes the test `ret > max_version`, so the
version query answers `-EINVAL`. -/
theorem get_version_of_neg (K : qcom_scm_h) (tz : scm_transport) (w : scm_world)
    (h : (qcom_scm_spdm_call K tz [K.QCOM_SCM_SPDM_GET_VERSION] 1 w).1 < 0) :
    qcom_scm_spdm_get_version K tz QCOM_SPDM_MAX_VERSION w =
      (-EINVAL, (qcom_scm_spdm_call K tz [K.QCOM_SCM_SPDM_GET_VERSION] 1 w).2) := by
  have hbig := to_u64_of_neg _ h (qcom_scm_spdm_call_ret_ge K tz _ 1 w)
  have hgt : QCOM_SPDM_MAX_VERSION <
      to_u64 (qcom_scm_spdm_call K tz [K.QCOM_SCM_SPDM_GET_VERSION] 1 w).1 := by
    unfold QCOM_SPDM_MAX_VERSION
    norm_num at hbig ⊢
    omega
  simp only [qcom_scm_spdm_get_version, List.length_singleton]
  rw [if_pos hgt]

theorem init_eq (K : qcom_scm_h) (tz : scm_transport) (dev : Option Nat) (flags : Nat)
    (w : scm_world) (hflags : flags &&& K.SCM_HAS_SPDM_SMC ≠ 0) :
    __qcom_scm_spdm_init K tz true dev flags w =
      if (qcom_scm_spdm_get_version K tz QCOM_SPDM_MAX_VERSION
          { w with __spdm := some ⟨dev, true⟩ }).1 < 0
      then ((qcom_scm_spdm_get_version K tz QCOM_SPDM_MAX_VERSION
          { w with __spdm := some ⟨dev, true⟩ }).1,
        { (qcom_scm_spdm_get_version K tz QCOM_SPDM_MAX_VERSION
            { w with __spdm := some ⟨dev, true⟩ }).2 with __spdm := none })
      else (0, (qcom_scm_spdm_get_version K tz QCOM_SPDM_MAX_VERSION
        { w with __spdm := some ⟨dev, true⟩ }).2) := by
  have hsmc : ((flags &&& K.SCM_HAS_SPDM_SMC) != 0) = true := by simpa using hflags
  simp only [__qcom_scm_spdm_init, hsmc]
  rfl

/-- **C14.** (a) Whenever the call made by the version query has a negative
result `r`, the test `ret > max_version` (signed 32 bits against unsigned 64
bits) holds, `qcom_scm_spdm_get_version` returns `-EINVAL`, and
`__qcom_scm_spdm_init` returns `-EINVAL` with `__spdm` reset to NULL.  (b) The
three sources of a negative `r`: a negative transport status is handed through
as `r`; a missing device gives `r = -ENODEV`, which is not `-EINVAL`; a
successful call whose result slot has bit 31 set gives
`r = (v mod 2^32) - 2^32`.  (c) On success the value returned is the reported
64-bit value truncated to a signed 32-bit integer. -/
theorem c14_negative_results_become_einval (K : qcom_scm_h) (tz : scm_transport)
    (w : scm_world) (dev : Option Nat) (flags d v : Nat) :
    ((qcom_scm_spdm_call K tz [K.QCOM_SCM_SPDM_GET_VERSION] 1 w).1 < 0 →
      QCOM_SPDM_MAX_VERSION <
        to_u64 (qcom_scm_spdm_call K tz [K.QCOM_SCM_SPDM_GET_VERSION] 1 w).1 ∧
      (qcom_scm_spdm_get_version K tz QCOM_SPDM_MAX_VERSION w).1 = -EINVAL) ∧
    (flags &&& K.SCM_HAS_SPDM_SMC ≠ 0 →
      (qcom_scm_spdm_call K tz [K.QCOM_SCM_SPDM_GET_VERSION] 1
        { w with __spdm := some ⟨dev, true⟩ }).1 < 0 →
      (__qcom_scm_spdm_init K tz true dev flags w).1 = -EINVAL ∧
      (__qcom_scm_spdm_init K tz true dev flags w).2.__spdm = none) ∧
    (to_int (tz w.calls
        (spdm_vector K (some d) [K.QCOM_SCM_SPDM_GET_VERSION, 0, 0, 0, 0, 0])).ret < 0 →
      (qcom_scm_spdm_call K tz [K.QCOM_SCM_SPDM_GET_VERSION] 1
        { w with __spdm := some ⟨some d, true⟩ }).1 =
        to_int (tz w.calls
          (spdm_vector K (some d) [K.QCOM_SCM_SPDM_GET_VERSION, 0, 0, 0, 0, 0])).ret) ∧
    ((qcom_scm_spdm_call K tz [K.QCOM_SCM_SPDM_GET_VERSION] 1
        { w with __spdm := some ⟨none, true⟩ }).1 = -ENODEV ∧
      -ENODEV < 0 ∧ -EINVAL ≠ -ENODEV) ∧
    (tz w.calls (spdm_vector K (some d) [K.QCOM_SCM_SPDM_GET_VERSION, 0, 0, 0, 0, 0])
        = ⟨0, v⟩ →
      2 ^ 31 ≤ v % 2 ^ 32 →
      (qcom_scm_spdm_call K tz [K.QCOM_SCM_SPDM_GET_VERSION] 1
        { w with __spdm := some ⟨some d, true⟩ }).1 = ((v % 2 ^ 32 : Nat) : Int) - 2 ^ 32 ∧
      ((v % 2 ^ 32 : Nat) : Int) - 2 ^ 32 < 0) ∧
    (tz w.calls (spdm_vector K (some d) [K.QCOM_SCM_SPDM_GET_VERSION, 0, 0, 0, 0, 0])
        = ⟨0, v⟩ →
      v % 2 ^ 32 ≤ QCOM_SPDM_MAX_VERSION →
      (qcom_scm_spdm_get_version K tz QCOM_SPDM_MAX_VERSION
        { w with __spdm := some ⟨some d, true⟩ }).1 = to_int (v : Int) ∧
      to_int (v : Int) = ((v % 2 ^ 32 : Nat) : Int)) := by
  have hdesc : (⟨some d, qcom_scm_spdm_desc K [K.QCOM_SCM_SPDM_GET_VERSION] 1⟩ : scm_invocation)
      = spdm_vector K (some d) [K.QCOM_SCM_SPDM_GET_VERSION, 0, 0, 0, 0, 0] := by
    simp [qcom_scm_spdm_desc, spdm_vector, QCOM_SPDM_NARGS, List.range_succ]
  have hcall := qcom_scm_spdm_call_dev K tz [K.QCOM_SCM_SPDM_GET_VERSION] 1
    { w with __spdm := some ⟨some d, true⟩ } d true rfl
  rw [hdesc] at hcall
  refine ⟨?_, ?_, ?_, ⟨?_, by decide, by decide⟩, ?_, ?_⟩
  · intro h
    have hbig := to_u64_of_neg _ h (qcom_scm_spdm_call_ret_ge K tz _ 1 w)
    refine ⟨?_, by rw [get_version_of_neg K tz w h]⟩
    unfold QCOM_SPDM_MAX_VERSION
    norm_num at hbig ⊢
    omega
  · intro hflags h
    have hneg : -EINVAL < 0 := by decide
    rw [init_eq K tz dev flags w hflags, get_version_of_neg K tz _ h, if_pos hneg]
    exact ⟨rfl, rfl⟩
  · intro h
    rw [hcall]
    simp only [ne_eq, Int.ne_of_lt h, not_false_eq_true, if_true]
  · simp [qcom_scm_spdm_call]
  · intro hreply hv
    rw [hcall]
    simp only [hreply]
    have h0 : to_int 0 = 0 := by decide
    simp only [h0, ne_eq, not_true_eq_false, if_false]
    refine ⟨to_int_of_high v hv, ?_⟩
    have := Nat.mod_lt v (show 0 < 2 ^ 32 by norm_num)
    norm_num at this ⊢
    omega
  · intro hreply hv
    have hval : to_int (v : Int) = ((v % 2 ^ 32 : Nat) : Int) :=
      to_int_of_low v (by unfold QCOM_SPDM_MAX_VERSION at hv; norm_num at hv ⊢; omega)
    have hnot : ¬ QCOM_SPDM_MAX_VERSION < to_u64 (to_int (v : Int)) := by
      rw [version_test_iff]; omega
    refine ⟨?_, hval⟩
    simp only [qcom_scm_spdm_get_version, List.length_singleton, hcall, hreply]
    have h0 : to_int 0 = 0 := by decide
    simp only [h0, ne_eq, not_true_eq_false, if_false]
    rw [if_neg hnot]

theorem c14_negative_results_become_einval_witness :
    (1 &&& sample_scm_h.SCM_HAS_SPDM_SMC ≠ 0) ∧
    (qcom_scm_spdm_call sample_scm_h (const_transport (-5) 0)
      [sample_scm_h.QCOM_SCM_SPDM_GET_VERSION] 1
      { scm_world_uninit with __spdm := some ⟨some 1, true⟩ }).1 < 0 ∧
    (__qcom_scm_spdm_init sample_scm_h (const_transport (-5) 0) true (some 1) 1
      scm_world_uninit).1 = -EINVAL ∧
    (__qcom_scm_spdm_init sample_scm_h (const_transport (-5) 0) true (some 1) 1
      scm_world_uninit).2.__spdm = none :=
  ⟨by decide, by decide,
    (c14_negative_results_become_einval sample_scm_h (const_transport (-5) 0) scm_world_uninit
      (some 1) 1 1 0).2.1 (by decide) (by decide)⟩
